import Mathlib

/-!
Shallow embedding of the core of the Earthang repository: the x86 opcode
encoder (`src/rython/src/bios/emitter.rs`) and the BIOS mode-transition
emitters (`src/rython/src/bios/transition.rs`), together with theorems
settling the specification's claims about them.

Conventions of the embedding:
* Machine bytes (`u8`) are `Nat` values below 256; where the Rust code
  relies on the `u8`/`u16`/`u32`/`u64` type to truncate, the embedding
  writes the truncation `% 2^w` explicitly.
* `i32` values are `Int`; the Rust casts `as u8` / `as u32` are modelled
  by `Int.emod` against the corresponding modulus (two's complement).
* Rust methods taking `&mut self` and returning `Result<T, String>` become
  functions `State → Except String T × State`: the second component is the
  state after the call (unchanged when the method returns before writing,
  exactly as the early `return Err` does in the source).
* `Vec<u8>` buffers become `List Nat`; `vec[i] = b` becomes `List.set`.
* Error messages that the source builds with `format!` interpolation are
  kept as their fixed prefix; no claim depends on the interpolated part.
-/

/-- ASCII uppercasing of a string, modelling Rust's `to_uppercase()` on the
mnemonic strings used by the encoder (all of them ASCII). -/
def str_to_upper (s : String) : String := ⟨s.data.map Char.toUpper⟩

/-- The register enumeration of `emitter.rs` (`enum Register`). -/
inductive Register where
  | AL | CL | DL | BL | AH | CH | DH | BH
  | AX | CX | DX | BX | SP | BP | SI | DI
  | EAX | ECX | EDX | EBX | ESP | EBP | ESI | EDI
  | RAX | RCX | RDX | RBX | RSP | RBP | RSI | RDI
  | R8 | R9 | R10 | R11 | R12 | R13 | R14 | R15
  | R8B | R9B | R10B | R11B | R12B | R13B | R14B | R15B
  | R8W | R9W | R10W | R11W | R12W | R13W | R14W | R15W
  | R8D | R9D | R10D | R11D | R12D | R13D | R14D | R15D
  | ES | CS | SS | DS | FS | GS
  deriving DecidableEq, Repr

/-- `struct MemoryOperand` of `emitter.rs`. `displacement` is the `i32`
field; `scale` the `u8` field. -/
structure MemoryOperand where
  segment : Option Register
  base : Option Register
  index : Option Register
  scale : Nat
  displacement : Int
  deriving DecidableEq, Repr

/-- `enum Operand` of `emitter.rs`. Immediate payloads are the unsigned
machine values; `Relative*` payloads are signed. -/
inductive Operand where
  | Register : Register → Operand
  | Memory : MemoryOperand → Operand
  | Immediate8 : Nat → Operand
  | Immediate16 : Nat → Operand
  | Immediate32 : Nat → Operand
  | Immediate64 : Nat → Operand
  | Label : String → Operand
  | Relative8 : Int → Operand
  | Relative16 : Int → Operand
  | Relative32 : Int → Operand
  deriving DecidableEq, Repr

/-- `struct Instruction` of `emitter.rs`. The five Boolean fields are the
source's `size_prefix`, `address_prefix`, `lock_prefix`, `rep_prefix` and
`repne_prefix` flags, under their source names. -/
structure Instruction where
  mnemonic : String
  operands : List Operand
  prefixes : List Nat
  size_prefix : Bool
  address_prefix : Bool
  lock_prefix : Bool
  rep_prefix : Bool
  repne_prefix : Bool

/-- `Instruction::new` of `emitter.rs`. -/
def Instruction.new (mnemonic : String) : Instruction :=
  { mnemonic := mnemonic, operands := [], prefixes := [],
    size_prefix := false, address_prefix := false,
    lock_prefix := false, rep_prefix := false, repne_prefix := false }

/-- `Instruction::operands` of `emitter.rs` (the builder method appending
operands; named `withOperands` here because the structure field is already
called `operands`). -/
def Instruction.withOperands (i : Instruction) (ops : List Operand) : Instruction :=
  { i with operands := i.operands ++ ops }

/-- `Instruction::modrm` of `emitter.rs`: builds `0xC0 | ((reg&7)<<3) | (rm&7)`
and pushes it into the `prefixes` vector. -/
def Instruction.modrm (i : Instruction) (reg rm : Nat) : Instruction :=
  { i with prefixes := i.prefixes ++ [0xC0 ||| ((reg &&& 0x07) <<< 3) ||| (rm &&& 0x07)] }

/-- `OpcodeEmitter::register_code` of `emitter.rs`: the 3-bit register code;
segment registers are unsupported (the source formats the register into the
error message; the fixed prefix is kept here). -/
def register_code (reg : Register) : Except String Nat :=
  match reg with
  | .AL | .AX | .EAX | .RAX => .ok 0
  | .CL | .CX | .ECX | .RCX => .ok 1
  | .DL | .DX | .EDX | .RDX => .ok 2
  | .BL | .BX | .EBX | .RBX => .ok 3
  | .AH | .SP | .ESP | .RSP => .ok 4
  | .CH | .BP | .EBP | .RBP => .ok 5
  | .DH | .SI | .ESI | .RSI => .ok 6
  | .BH | .DI | .EDI | .RDI => .ok 7
  | .R8 | .R8B | .R8W | .R8D => .ok 0
  | .R9 | .R9B | .R9W | .R9D => .ok 1
  | .R10 | .R10B | .R10W | .R10D => .ok 2
  | .R11 | .R11B | .R11W | .R11D => .ok 3
  | .R12 | .R12B | .R12W | .R12D => .ok 4
  | .R13 | .R13B | .R13W | .R13D => .ok 5
  | .R14 | .R14B | .R14W | .R14D => .ok 6
  | .R15 | .R15B | .R15W | .R15D => .ok 7
  | _ => .error "Unsupported register"

/-- `OpcodeEmitter::register_code_8` (delegates to `register_code`). -/
def register_code_8 (reg : Register) : Except String Nat := register_code reg

/-- `OpcodeEmitter::register_code_16` (delegates to `register_code`). -/
def register_code_16 (reg : Register) : Except String Nat := register_code reg

/-- `OpcodeEmitter::register_code_32` (delegates to `register_code`). -/
def register_code_32 (reg : Register) : Except String Nat := register_code reg

/-- `OpcodeEmitter::modrm_byte` of `emitter.rs`: validates the three fields
and assembles `(mode<<6)|(reg<<3)|rm`. -/
def modrm_byte (mode reg rm : Nat) : Except String Nat :=
  if mode > 3 ∨ reg > 7 ∨ rm > 7 then
    .error "Invalid ModR/M fields"
  else
    .ok ((mode <<< 6) ||| (reg <<< 3) ||| rm)

/-- Little-endian bytes of a `u16` (`to_le_bytes`). -/
def u16_le (v : Nat) : List Nat := [v % 256, v / 256 % 256]

/-- Little-endian bytes of a `u32` (`to_le_bytes`). -/
def u32_le (v : Nat) : List Nat :=
  [v % 256, v / 256 % 256, v / 65536 % 256, v / 16777216 % 256]

/-- Little-endian bytes of a `u64` (`to_le_bytes`). -/
def u64_le (v : Nat) : List Nat :=
  u32_le (v % 4294967296) ++ u32_le (v / 4294967296 % 4294967296)

/-- The Rust cast `i32 as u8` (two's-complement truncation). -/
def i32_as_u8 (d : Int) : Nat := (d.emod 256).toNat

/-- The Rust cast `i32 as u32` (two's-complement reinterpretation). -/
def i32_as_u32 (d : Int) : Nat := (d.emod 4294967296).toNat

/-- The 64-bit-register test inlined in `encode_mov`'s register-register arm
(`match (dst, src) { (RAX | ... | R15, _) => true, _ => false }`): only the
destination register is examined. -/
def is_64bit_reg (r : Register) : Bool :=
  match r with
  | .RAX | .RCX | .RDX | .RBX | .RSP | .RBP | .RSI | .RDI
  | .R8 | .R9 | .R10 | .R11 | .R12 | .R13 | .R14 | .R15 => true
  | _ => false

/-- `OpcodeEmitter::encode_memory_operand` of `emitter.rs`. The returned
list is what the call appends to `bytes`: in the base+index arm the SIB byte
is pushed before the ModRM byte, and the displacement bytes last. -/
def encode_memory_operand (mem : MemoryOperand) (reg_field : Nat) :
    Except String (List Nat) :=
  match mem.base, mem.index with
  | some base, none => do
      let rm_field ← register_code base
      let (mod_field, displacement_bytes) :=
        if mem.displacement = 0 ∧ base ≠ Register.BP ∧ base ≠ Register.RBP then
          (0, ([] : List Nat))
        else if -128 ≤ mem.displacement ∧ mem.displacement ≤ 127 then
          (1, [i32_as_u8 mem.displacement])
        else
          (2, u32_le (i32_as_u32 mem.displacement))
      let modrm ← modrm_byte mod_field reg_field rm_field
      .ok ([modrm] ++ displacement_bytes)
  | some base, some index =>
      if mem.scale = 1 then do
        let mod_field : Nat :=
          if mem.displacement = 0 then 0
          else if -128 ≤ mem.displacement ∧ mem.displacement ≤ 127 then 1
          else 2
        let displacement_bytes :=
          if mod_field > 0 then u32_le (i32_as_u32 mem.displacement)
          else ([] : List Nat)
        let index_code ← register_code index
        let base_code ← register_code base
        let sib := (mem.scale <<< 6) ||| (index_code <<< 3) ||| base_code
        -- rm_field = 4 in this arm: a SIB byte follows
        let modrm ← modrm_byte mod_field reg_field 4
        .ok ([sib, modrm] ++ displacement_bytes)
      else .error "Unsupported memory addressing mode"
  | _, _ => .error "Unsupported memory addressing mode"

/-- `OpcodeEmitter::encode_mov` of `emitter.rs`. The returned list is the
whole contents the call leaves in `bytes`. -/
def encode_mov (operands : List Operand) : Except String (List Nat) :=
  match operands with
  | [Operand.Register dst, Operand.Immediate8 imm] => do
      let reg_code ← register_code_8 dst
      .ok [0xB0 + reg_code, imm % 256]
  | [Operand.Register dst, Operand.Immediate16 imm] => do
      let reg_code ← register_code_16 dst
      .ok [0xB8 + reg_code, imm % 256, (imm >>> 8) % 256]
  | [Operand.Register dst, Operand.Immediate32 imm] => do
      let reg_code ← register_code_32 dst
      .ok ([0xB8 + reg_code] ++ u32_le imm)
  | [Operand.Register dst, Operand.Immediate64 imm] => do
      -- 64-bit immediate mov requires REX.W prefix (0x48), pushed first
      let reg_code ← register_code dst
      .ok ([0x48, 0xB8 + reg_code] ++ u64_le imm)
  | [Operand.Register dst, Operand.Register src] => do
      let src_code ← register_code src
      let dst_code ← register_code dst
      let modrm ← modrm_byte 3 src_code dst_code
      .ok ((if is_64bit_reg dst then [0x48] else []) ++ [0x89, modrm])
  | [Operand.Register dst, Operand.Memory src_mem] => do
      let dst_code ← register_code dst
      let mem_bytes ← encode_memory_operand src_mem dst_code
      .ok ([0x8B] ++ mem_bytes)
  | [Operand.Memory dst_mem, Operand.Register src] => do
      let src_code ← register_code src
      let mem_bytes ← encode_memory_operand dst_mem src_code
      .ok ([0x89] ++ mem_bytes)
  | [_, _] => .error "Unsupported MOV operands"
  | _ => .error "MOV requires exactly 2 operands"

/-- `OpcodeEmitter::encode_add` of `emitter.rs`. Only the `Immediate64` arm
pushes the REX.W byte; the register-register arm does not. -/
def encode_add (operands : List Operand) : Except String (List Nat) :=
  match operands with
  | [Operand.Register dst, Operand.Immediate8 imm] => do
      let dst_code ← register_code dst
      let modrm ← modrm_byte 0 dst_code 0
      .ok [0x80, modrm, imm % 256]
  | [Operand.Register dst, Operand.Immediate32 imm] => do
      let dst_code ← register_code dst
      let modrm ← modrm_byte 0 dst_code 0
      .ok ([0x81, modrm] ++ u32_le imm)
  | [Operand.Register dst, Operand.Immediate64 imm] => do
      let dst_code ← register_code dst
      let modrm ← modrm_byte 0 dst_code 0
      .ok ([0x48, 0x81, modrm] ++ u64_le imm)
  | [Operand.Register dst, Operand.Register src] => do
      let src_code ← register_code src
      let dst_code ← register_code dst
      let modrm ← modrm_byte 3 src_code dst_code
      .ok [0x01, modrm]
  | [_, _] => .error "Unsupported ADD operands"
  | _ => .error "ADD requires exactly 2 operands"

/-- `OpcodeEmitter::encode_sub` of `emitter.rs`: only `Immediate32` and
register-register arms exist; no REX.W is ever pushed. -/
def encode_sub (operands : List Operand) : Except String (List Nat) :=
  match operands with
  | [Operand.Register dst, Operand.Immediate32 imm] => do
      let dst_code ← register_code dst
      let modrm ← modrm_byte 5 dst_code 0
      .ok ([0x81, modrm] ++ u32_le imm)
  | [Operand.Register dst, Operand.Register src] => do
      let src_code ← register_code src
      let dst_code ← register_code dst
      let modrm ← modrm_byte 3 src_code dst_code
      .ok [0x29, modrm]
  | [_, _] => .error "Unsupported SUB operands"
  | _ => .error "SUB requires exactly 2 operands"

/-- `OpcodeEmitter::encode_cmp` of `emitter.rs`. -/
def encode_cmp (operands : List Operand) : Except String (List Nat) :=
  match operands with
  | [Operand.Register dst, Operand.Immediate8 imm] => do
      let dst_code ← register_code dst
      let modrm ← modrm_byte 7 dst_code 0
      .ok [0x80, modrm, imm % 256]
  | [Operand.Register dst, Operand.Immediate32 imm] => do
      let dst_code ← register_code dst
      let modrm ← modrm_byte 7 dst_code 0
      .ok ([0x81, modrm] ++ u32_le imm)
  | [Operand.Register dst, Operand.Register src] => do
      let src_code ← register_code src
      let dst_code ← register_code dst
      let modrm ← modrm_byte 3 src_code dst_code
      .ok [0x39, modrm]
  | [_, _] => .error "Unsupported CMP operands"
  | _ => .error "CMP requires exactly 2 operands"

/-- `OpcodeEmitter::encode_jmp` of `emitter.rs`. -/
def encode_jmp (operands : List Operand) : Except String (List Nat) :=
  match operands with
  | [Operand.Relative8 rel] => .ok [0xEB, i32_as_u8 rel]
  | [Operand.Relative32 rel] => .ok ([0xE9] ++ u32_le (i32_as_u32 rel))
  | [Operand.Label _label] => .ok [0xE9, 0x00, 0x00, 0x00, 0x00]
  | [_] => .error "Unsupported JMP operand"
  | _ => .error "JMP requires exactly 1 operand"

/-- `OpcodeEmitter::encode_call` of `emitter.rs`. -/
def encode_call (operands : List Operand) : Except String (List Nat) :=
  match operands with
  | [Operand.Relative32 rel] => .ok ([0xE8] ++ u32_le (i32_as_u32 rel))
  | [Operand.Label _label] => .ok [0xE8, 0x00, 0x00, 0x00, 0x00]
  | [_] => .error "Unsupported CALL operand"
  | _ => .error "CALL requires exactly 1 operand"

/-- `OpcodeEmitter::encode_push` of `emitter.rs`. -/
def encode_push (operands : List Operand) : Except String (List Nat) :=
  match operands with
  | [Operand.Register reg] => do
      let code ← register_code_16 reg
      .ok [0x50 + code]
  | [Operand.Immediate32 imm] => .ok ([0x68] ++ u32_le imm)
  | [Operand.Immediate8 imm] => .ok [0x6A, imm % 256]
  | [_] => .error "Unsupported PUSH operand"
  | _ => .error "PUSH requires exactly 1 operand"

/-- `OpcodeEmitter::encode_pop` of `emitter.rs`. -/
def encode_pop (operands : List Operand) : Except String (List Nat) :=
  match operands with
  | [Operand.Register reg] => do
      let code ← register_code_16 reg
      .ok [0x58 + code]
  | [_] => .error "Unsupported POP operand"
  | _ => .error "POP requires exactly 1 operand"

/-- `OpcodeEmitter::encode_ret` of `emitter.rs`. -/
def encode_ret (operands : List Operand) : Except String (List Nat) :=
  match operands with
  | [] => .ok [0xC3]
  | [Operand.Immediate16 imm] => .ok ([0xC2] ++ u16_le imm)
  | [_] => .error "RET expects immediate operand"
  | _ => .error "RET expects 0 or 1 operands"

/-- `OpcodeEmitter::encode_int` of `emitter.rs` (`INT 3` is the single
byte 0xCC). -/
def encode_int (operands : List Operand) : Except String (List Nat) :=
  match operands with
  | [Operand.Immediate8 imm] =>
      if imm = 3 then .ok [0xCC] else .ok [0xCD, imm % 256]
  | [_] => .error "INT expects immediate operand"
  | _ => .error "INT requires exactly 1 operand"

/-- `OpcodeEmitter::encode_xchg` of `emitter.rs` (`XCHG AX, AX` is NOP). -/
def encode_xchg (operands : List Operand) : Except String (List Nat) :=
  match operands with
  | [Operand.Register r1, Operand.Register r2] =>
      if r1 = Register.AX ∧ r2 = Register.AX then .ok [0x90]
      else do
        let c2 ← register_code r2
        let c1 ← register_code r1
        let modrm ← modrm_byte 3 c2 c1
        .ok [0x87, modrm]
  | [_, _] => .error "Unsupported XCHG operands"
  | _ => .error "XCHG requires exactly 2 operands"

/-- `OpcodeEmitter::encode_lea` of `emitter.rs`. -/
def encode_lea (operands : List Operand) : Except String (List Nat) :=
  match operands with
  | [Operand.Register dst, Operand.Memory src] => do
      let dst_code ← register_code dst
      let mem_bytes ← encode_memory_operand src dst_code
      .ok ([0x8D] ++ mem_bytes)
  | [_, _] => .error "Unsupported LEA operands"
  | _ => .error "LEA requires exactly 2 operands"

/-- `OpcodeEmitter::encode_neg` of `emitter.rs` (group F7/3). -/
def encode_neg (operands : List Operand) : Except String (List Nat) :=
  match operands with
  | [Operand.Register reg] => do
      let code ← register_code reg
      let modrm ← modrm_byte 3 3 code
      .ok [0xF7, modrm]
  | [_] => .error "Unsupported NEG operand"
  | _ => .error "NEG requires exactly 1 operand"

/-- `OpcodeEmitter::encode_not` of `emitter.rs` (group F7/2). -/
def encode_not (operands : List Operand) : Except String (List Nat) :=
  match operands with
  | [Operand.Register reg] => do
      let code ← register_code reg
      let modrm ← modrm_byte 3 2 code
      .ok [0xF7, modrm]
  | [_] => .error "Unsupported NOT operand"
  | _ => .error "NOT requires exactly 1 operand"

/-- `OpcodeEmitter::encode_imul` of `emitter.rs` (one operand: group F7/5;
two operands: 0F AF). -/
def encode_imul (operands : List Operand) : Except String (List Nat) :=
  match operands with
  | [Operand.Register reg] => do
      let code ← register_code reg
      let modrm ← modrm_byte 3 5 code
      .ok [0xF7, modrm]
  | [Operand.Register dst, Operand.Register src] => do
      let dst_code ← register_code dst
      let src_code ← register_code src
      let modrm ← modrm_byte 3 dst_code src_code
      .ok [0x0F, 0xAF, modrm]
  | [_] => .error "Unsupported IMUL operand"
  | [_, _] => .error "Unsupported IMUL operands"
  | _ => .error "IMUL requires 1 or 2 operands"

/-- `OpcodeEmitter::encode_idiv` of `emitter.rs` (group F7/7). -/
def encode_idiv (operands : List Operand) : Except String (List Nat) :=
  match operands with
  | [Operand.Register reg] => do
      let code ← register_code reg
      let modrm ← modrm_byte 3 7 code
      .ok [0xF7, modrm]
  | [_] => .error "Unsupported IDIV operand"
  | _ => .error "IDIV requires exactly 1 operand"

/-- `OpcodeEmitter::encode_set_instruction` of `emitter.rs` (the SETcc
family: 0F xx with ModRM reg field 0). -/
def encode_set_instruction (operands : List Operand) (opcode_offset : Nat) :
    Except String (List Nat) :=
  match operands with
  | [Operand.Register reg] => do
      let code ← register_code_8 reg
      let modrm ← modrm_byte 3 0 code
      .ok [0x0F, opcode_offset, modrm]
  | [_] => .error "SET instruction expects register operand"
  | _ => .error "SET instruction requires exactly 1 operand"

/-- `OpcodeEmitter::encode_movzx` of `emitter.rs` (0F B6). -/
def encode_movzx (operands : List Operand) : Except String (List Nat) :=
  match operands with
  | [Operand.Register dst, Operand.Register src] => do
      let dst_code ← register_code dst
      let src_code ← register_code src
      let modrm ← modrm_byte 3 dst_code src_code
      .ok [0x0F, 0xB6, modrm]
  | [_, _] => .error "Unsupported MOVZX operands"
  | _ => .error "MOVZX requires exactly 2 operands"

/-- `OpcodeEmitter::encode_opcode` of `emitter.rs`: dispatch on the
uppercased mnemonic. The opcode maps parsed from `opcode.txt` are never
consulted by this dispatch, so the embedding carries no emitter state. -/
def encode_opcode (mnemonic : String) (operands : List Operand) :
    Except String (List Nat) :=
  match str_to_upper mnemonic with
  | "MOV" => encode_mov operands
  | "ADD" => encode_add operands
  | "SUB" => encode_sub operands
  | "CMP" => encode_cmp operands
  | "JMP" => encode_jmp operands
  | "CALL" => encode_call operands
  | "PUSH" => encode_push operands
  | "POP" => encode_pop operands
  | "RET" => encode_ret operands
  | "INT" => encode_int operands
  | "XCHG" => encode_xchg operands
  | "LEA" => encode_lea operands
  | "NOP" => .ok [0x90]
  | "HLT" => .ok [0xF4]
  | "CLC" => .ok [0xF8]
  | "STC" => .ok [0xF9]
  | "CLI" => .ok [0xFA]
  | "STI" => .ok [0xFB]
  | "CLD" => .ok [0xFC]
  | "STD" => .ok [0xFD]
  | "CMC" => .ok [0xF5]
  | "NEG" => encode_neg operands
  | "NOT" => encode_not operands
  | "IMUL" => encode_imul operands
  | "IDIV" => encode_idiv operands
  | "SETE" => encode_set_instruction operands 0x94
  | "SETNE" => encode_set_instruction operands 0x95
  | "SETL" => encode_set_instruction operands 0x9C
  | "SETLE" => encode_set_instruction operands 0x9E
  | "SETG" => encode_set_instruction operands 0x9F
  | "SETGE" => encode_set_instruction operands 0x9D
  | "SETB" => encode_set_instruction operands 0x92
  | "SETBE" => encode_set_instruction operands 0x96
  | "SETA" => encode_set_instruction operands 0x97
  | "SETAE" => encode_set_instruction operands 0x93
  | "MOVZX" => encode_movzx operands
  | _ => .error ("Unknown mnemonic: " ++ mnemonic)

/-- `OpcodeEmitter::encode_instruction` of `emitter.rs`: the five prefix
flags contribute their bytes (in source order F0, F3, F2, 66, 67), then the
opcode encoding follows. The `prefixes` vector is never read. -/
def encode_instruction (instr : Instruction) : Except String (List Nat) := do
  let bytes :=
    (if instr.lock_prefix then [0xF0] else []) ++
    (if instr.rep_prefix then [0xF3] else []) ++
    (if instr.repne_prefix then [0xF2] else []) ++
    (if instr.size_prefix then [0x66] else []) ++
    (if instr.address_prefix then [0x67] else [])
  let opcode_bytes ← encode_opcode instr.mnemonic instr.operands
  .ok (bytes ++ opcode_bytes)

/-- Convenience constructor `mov` of `emitter.rs`. -/
def mov (dst src : Operand) : Instruction :=
  (Instruction.new "MOV").withOperands [dst, src]

/-- Convenience constructor `add` of `emitter.rs`. -/
def add (dst src : Operand) : Instruction :=
  (Instruction.new "ADD").withOperands [dst, src]

/-- Convenience constructor `sub` of `emitter.rs`. -/
def sub (dst src : Operand) : Instruction :=
  (Instruction.new "SUB").withOperands [dst, src]

/-- Convenience constructor `cmp` of `emitter.rs` (named `cmp_ins` here:
Mathlib already declares a root-level `cmp`). -/
def cmp_ins (dst src : Operand) : Instruction :=
  (Instruction.new "CMP").withOperands [dst, src]

/-- The byte-writing loop shared by `ModeTransitionEmitter::emit_bytes`,
`CompactBootloader::emit` and `MicroBootloader::create`:
`for &byte in bytes { buf[pos] = byte; pos += 1; }`. -/
def write_loop : List Nat → Nat → List Nat → List Nat × Nat
  | buf, pos, [] => (buf, pos)
  | buf, pos, b :: rest => write_loop (buf.set pos b) (pos + 1) rest

/-- Sequencing of two fallible mutating calls, as Rust's `?` behaves on
`&mut self` methods: an `Err` short-circuits, keeping the state the failing
call left behind. -/
def andThen {σ α β : Type} (r : Except String α × σ) (f : σ → Except String β × σ) :
    Except String β × σ :=
  match r with
  | (.error e, st) => (.error e, st)
  | (.ok _, st) => f st

/-- `struct ModeTransitionEmitter` of `transition.rs`. -/
structure ModeTransitionEmitter where
  binary : List Nat
  position : Nat
  is_64bit : Bool
  has_paging : Bool
  has_avx512 : Bool
  has_sse : Bool
  has_avx : Bool

/-- `ModeTransitionEmitter::new` of `transition.rs` (`vec![0u8; 512]`). -/
def ModeTransitionEmitter.new : ModeTransitionEmitter :=
  { binary := List.replicate 512 0, position := 0, is_64bit := false,
    has_paging := false, has_avx512 := false, has_sse := false, has_avx := false }

/-- `ModeTransitionEmitter::emit_bytes` of `transition.rs`: rejects any
write that would end past offset 510 before touching the buffer; otherwise
writes the bytes one by one and advances the position. -/
def ModeTransitionEmitter.emit_bytes (st : ModeTransitionEmitter) (bytes : List Nat) :
    Except String Unit × ModeTransitionEmitter :=
  if st.position + bytes.length > 510 then
    (.error "Bootloader exceeds 512 bytes", st)
  else
    let wp := write_loop st.binary st.position bytes
    (.ok (), { st with binary := wp.1, position := wp.2 })

/-- `ModeTransitionEmitter::emit_nop` of `transition.rs`. -/
def ModeTransitionEmitter.emit_nop (st : ModeTransitionEmitter) :
    Except String Unit × ModeTransitionEmitter :=
  st.emit_bytes [0x90]

/-- A straight-line sequence of `emit_bytes` calls (each phase method of
`transition.rs` is such a sequence; the chunk lists below carry the literal
byte arrays of the source, one entry per `emit_bytes` call). -/
def emit_chunks : List (List Nat) → ModeTransitionEmitter →
    Except String Unit × ModeTransitionEmitter
  | [], st => (.ok (), st)
  | c :: cs, st => andThen (st.emit_bytes c) (emit_chunks cs)

/-- The `emit_bytes` arguments of `ModeTransitionEmitter::emit_16bit_setup`
(phase 1, RealMode16): CLI; XOR AX,AX; MOV DS/ES/SS,AX; MOV SP,0x7C00; CLD. -/
def setup16_chunks : List (List Nat) :=
  [[0xFA],
   [0x31, 0xC0],
   [0x8E, 0xD8],
   [0x8E, 0xC0],
   [0x8E, 0xD0],
   [0xBC, 0x00, 0x7C],
   [0xFC]]

/-- `ModeTransitionEmitter::emit_16bit_setup` of `transition.rs`. -/
def ModeTransitionEmitter.emit_16bit_setup (st : ModeTransitionEmitter) :
    Except String Unit × ModeTransitionEmitter :=
  emit_chunks setup16_chunks st

/-- The `emit_bytes` arguments of `ModeTransitionEmitter::emit_enable_a20`
(phase 2): IN AL,0x92; OR AL,2; OUT 0x92,AL; JMP $+2. -/
def a20_chunks : List (List Nat) :=
  [[0xE4, 0x92],
   [0x0C, 0x02],
   [0xE6, 0x92],
   [0xEB, 0x00]]

/-- `ModeTransitionEmitter::emit_enable_a20` of `transition.rs`. -/
def ModeTransitionEmitter.emit_enable_a20 (st : ModeTransitionEmitter) :
    Except String Unit × ModeTransitionEmitter :=
  emit_chunks a20_chunks st

/-- The `emit_bytes` arguments of `ModeTransitionEmitter::emit_cpuid_detection`
(phase 3): EFLAGS ID-bit toggle, CPUID leaf 0, leaf 1 (SSE/AVX tests) and
leaf 7 (AVX-512F test). -/
def cpuid_chunks : List (List Nat) :=
  [[0x9C],
   [0x58],
   [0x89, 0xC3],
   [0x35, 0x00, 0x02],
   [0x50],
   [0x9D],
   [0x9C],
   [0x58],
   [0x50],
   [0x89, 0xD8],
   [0x50],
   [0x9D],
   [0x31, 0xD2],
   [0x39, 0xD8],
   [0x74, 0x05],
   [0x31, 0xC0],
   [0x0F, 0xA2],
   [0xB8, 0x01, 0x00, 0x00, 0x00],
   [0x0F, 0xA2],
   [0xF6, 0xC2, 0x20],
   [0x0F, 0x85, 0x03, 0x00],
   [0xF6, 0xC1, 0x10],
   [0x0F, 0x85, 0x03, 0x00],
   [0xB8, 0x07, 0x00, 0x00, 0x00],
   [0x31, 0xC9],
   [0x0F, 0xA2],
   [0xF6, 0xC3, 0x10],
   [0x0F, 0x85, 0x03, 0x00]]

/-- `ModeTransitionEmitter::emit_cpuid_detection` of `transition.rs`. -/
def ModeTransitionEmitter.emit_cpuid_detection (st : ModeTransitionEmitter) :
    Except String Unit × ModeTransitionEmitter :=
  emit_chunks cpuid_chunks st

/-- The `emit_bytes` arguments of
`ModeTransitionEmitter::emit_enter_protected_mode` (phase 4). -/
def pmode_chunks : List (List Nat) :=
  [[0x0F, 0x01, 0x16],
   [0x00, 0x00],
   [0x0F, 0x20, 0xC0],
   [0x66, 0x83, 0xC8, 0x01],
   [0x0F, 0x22, 0xC0],
   [0xEA],
   [0x00, 0x00, 0x00, 0x00],
   [0x08, 0x00],
   [0x66, 0xB8, 0x10, 0x00],
   [0x8E, 0xD8],
   [0x8E, 0xC0],
   [0x8E, 0xD0],
   [0x8E, 0xE0],
   [0x8E, 0xE8],
   [0xBC, 0x00, 0x00, 0x00, 0x00]]

/-- `ModeTransitionEmitter::emit_enter_protected_mode` of `transition.rs`. -/
def ModeTransitionEmitter.emit_enter_protected_mode (st : ModeTransitionEmitter) :
    Except String Unit × ModeTransitionEmitter :=
  emit_chunks pmode_chunks st

/-- The `emit_bytes` arguments of `ModeTransitionEmitter::emit_setup_paging`
(phase 5). -/
def paging_chunks : List (List Nat) :=
  [[0xBF, 0x00, 0x10, 0x00, 0x00],
   [0xB9, 0x00, 0x10, 0x00, 0x00],
   [0x31, 0xC0],
   [0xF3, 0xAB],
   [0xC7, 0x05, 0x00, 0x10, 0x00, 0x00, 0x07, 0x20, 0x00, 0x00],
   [0xC7, 0x05, 0x00, 0x20, 0x00, 0x00, 0x07, 0x30, 0x00, 0x00],
   [0xC7, 0x05, 0x00, 0x30, 0x00, 0x00, 0x07, 0x40, 0x00, 0x00],
   [0xBF, 0x00, 0x40, 0x00, 0x00],
   [0xB9, 0x00, 0x02, 0x00, 0x00],
   [0x31, 0xC0],
   [0x89, 0x07],
   [0x83, 0xC0, 0x01],
   [0x83, 0xC7, 0x04],
   [0xE2, 0xF7],
   [0x0F, 0x20, 0xE0],
   [0x0D, 0x20, 0x00, 0x00, 0x00],
   [0x0F, 0x22, 0xE0],
   [0xB8, 0x00, 0x10, 0x00, 0x00],
   [0x0F, 0x22, 0xD8]]

/-- `ModeTransitionEmitter::emit_setup_paging` of `transition.rs` (sets
`has_paging` after the emission sequence succeeds). -/
def ModeTransitionEmitter.emit_setup_paging (st : ModeTransitionEmitter) :
    Except String Unit × ModeTransitionEmitter :=
  andThen (emit_chunks paging_chunks st) fun st =>
    (.ok (), { st with has_paging := true })

/-- The `emit_bytes` arguments of `ModeTransitionEmitter::emit_enter_long_mode`
(phase 6). -/
def lmode_chunks : List (List Nat) :=
  [[0xB8, 0xC0, 0x00, 0x00, 0x00],
   [0x0F, 0x32],
   [0x0D, 0x00, 0x01, 0x00, 0x00],
   [0x0F, 0x30],
   [0x0F, 0x20, 0xC0],
   [0x0D, 0x00, 0x00, 0x00, 0x80],
   [0x0F, 0x22, 0xC0],
   [0x0F, 0x01, 0x15],
   [0x00, 0x00],
   [0xEA],
   [0x00, 0x00, 0x00, 0x00],
   [0x08, 0x00],
   [0x48, 0x31, 0xC0],
   [0x48, 0x8E, 0xD8],
   [0x48, 0x8E, 0xC0],
   [0x48, 0x8E, 0xD0],
   [0x48, 0x8E, 0xE0],
   [0x48, 0x8E, 0xE8],
   [0x48, 0xBC, 0x00, 0x00, 0x00, 0x00, 0x00, 0x00, 0x00, 0x00]]

/-- `ModeTransitionEmitter::emit_enter_long_mode` of `transition.rs` (sets
`is_64bit` after the emission sequence succeeds). -/
def ModeTransitionEmitter.emit_enter_long_mode (st : ModeTransitionEmitter) :
    Except String Unit × ModeTransitionEmitter :=
  andThen (emit_chunks lmode_chunks st) fun st =>
    (.ok (), { st with is_64bit := true })

/-- The `emit_bytes` arguments of `ModeTransitionEmitter::emit_enable_simd`
(phase 7) up to and including the XCR0 AVX enable block, after which the
source sets `has_avx`. Chunk 12 is `JZ skip_xsave`, chunk 26 is
`JZ skip_avx`: both carry the placeholder rel32 displacement 0. -/
def simd_chunks_a : List (List Nat) :=
  [[0x48, 0x0F, 0x20, 0xC0],
   [0x48, 0x25, 0xFB, 0xFF, 0xFF, 0xFF],
   [0x48, 0x0D, 0x02, 0x00, 0x00, 0x00],
   [0x48, 0x0F, 0x22, 0xC0],
   [0x48, 0x0F, 0x20, 0xE0],
   [0x48, 0x0D, 0x00, 0x06, 0x00, 0x00],
   [0x48, 0x0F, 0x22, 0xE0],
   [0x48, 0xC7, 0xC0, 0x01, 0x00, 0x00, 0x00],
   [0x48, 0x31, 0xC9],
   [0x0F, 0xA2],
   [0x48, 0xF7, 0xC2, 0x00, 0x04, 0x00, 0x00],
   [0x0F, 0x84, 0x00, 0x00, 0x00, 0x00],
   [0x48, 0x0F, 0x20, 0xE0],
   [0x48, 0x0D, 0x00, 0x00, 0x04, 0x00],
   [0x48, 0x0F, 0x22, 0xE0],
   [0x48, 0x31, 0xC0],
   [0x48, 0x31, 0xD2],
   [0x48, 0x0F, 0x01, 0xD0],
   [0x48, 0x0D, 0x03, 0x00, 0x00, 0x00],
   [0x48, 0x31, 0xD2],
   [0x48, 0x0F, 0x01, 0xD1],
   [0x48, 0xC7, 0xC0, 0x01, 0x00, 0x00, 0x00],
   [0x48, 0x31, 0xC9],
   [0x0F, 0xA2],
   [0x48, 0xF7, 0xC1, 0x00, 0x00, 0x00, 0x10],
   [0x0F, 0x84, 0x00, 0x00, 0x00, 0x00],
   [0x48, 0x31, 0xC0],
   [0x48, 0x31, 0xD2],
   [0x48, 0x0F, 0x01, 0xD0],
   [0x48, 0x0D, 0x07, 0x00, 0x00, 0x00],
   [0x48, 0x31, 0xD2],
   [0x48, 0x0F, 0x01, 0xD1]]

/-- The remaining `emit_bytes` arguments of
`ModeTransitionEmitter::emit_enable_simd`: the AVX-512 probe,
`JZ skip_avx512` (again rel32 displacement 0), and the XCR0 AVX-512 enable
block, after which the source sets `has_avx512`. -/
def simd_chunks_b : List (List Nat) :=
  [[0x48, 0xC7, 0xC0, 0x07, 0x00, 0x00, 0x00],
   [0x48, 0x31, 0xC9],
   [0x0F, 0xA2],
   [0x48, 0xF7, 0xC3, 0x00, 0x00, 0x00, 0x10],
   [0x0F, 0x84, 0x00, 0x00, 0x00, 0x00],
   [0x48, 0x31, 0xC0],
   [0x48, 0x31, 0xD2],
   [0x48, 0x0F, 0x01, 0xD0],
   [0x48, 0x0D, 0xE7, 0x00, 0x00, 0x00],
   [0x48, 0x31, 0xD2],
   [0x48, 0x0F, 0x01, 0xD1]]

/-- `ModeTransitionEmitter::emit_enable_simd` of `transition.rs`. -/
def ModeTransitionEmitter.emit_enable_simd (st : ModeTransitionEmitter) :
    Except String Unit × ModeTransitionEmitter :=
  andThen (emit_chunks simd_chunks_a st) fun st =>
  andThen (emit_chunks simd_chunks_b { st with has_avx := true }) fun st =>
    (.ok (), { st with has_avx512 := true })

/-- The byte stream phase 7 appends to the image (the concatenation of its
`emit_bytes` arguments, in order). -/
def simd_stream : List Nat := (simd_chunks_a ++ simd_chunks_b).flatten

/-- The `emit_bytes` arguments of `ModeTransitionEmitter::emit_jump_to_graphics`
(phase 8): MOV RAX, 0x100000; JMP RAX. -/
def jump_chunks : List (List Nat) :=
  [[0x48, 0xB8, 0x00, 0x00, 0x10, 0x00, 0x00, 0x00, 0x00, 0x00],
   [0xFF, 0xE0]]

/-- `ModeTransitionEmitter::emit_jump_to_graphics` of `transition.rs`. -/
def ModeTransitionEmitter.emit_jump_to_graphics (st : ModeTransitionEmitter) :
    Except String Unit × ModeTransitionEmitter :=
  emit_chunks jump_chunks st

/-- The NOP-fill loop of `create_bootloader`
(`while self.position < 510 { self.emit_nop()?; }`), with explicit fuel:
each successful iteration raises `position` by one, so the loop runs at most
510 times and any fuel of at least 510 gives the loop's exact behavior;
`create_bootloader` passes 512. -/
def fill_nops : Nat → ModeTransitionEmitter →
    Except String Unit × ModeTransitionEmitter
  | 0, st => (.ok (), st)
  | fuel + 1, st =>
      if st.position < 510 then
        andThen st.emit_nop (fill_nops fuel)
      else (.ok (), st)

/-- `ModeTransitionEmitter::create_bootloader` of `transition.rs`: the eight
phases in order, the NOP fill to offset 510, and the 0x55/0xAA signature at
offsets 510/511; returns a copy of the 512-byte buffer. -/
def ModeTransitionEmitter.create_bootloader (st : ModeTransitionEmitter) :
    Except String (List Nat) × ModeTransitionEmitter :=
  andThen st.emit_16bit_setup fun st =>
  andThen st.emit_enable_a20 fun st =>
  andThen st.emit_cpuid_detection fun st =>
  andThen st.emit_enter_protected_mode fun st =>
  andThen st.emit_setup_paging fun st =>
  andThen st.emit_enter_long_mode fun st =>
  andThen st.emit_enable_simd fun st =>
  andThen st.emit_jump_to_graphics fun st =>
  andThen (fill_nops 512 st) fun st =>
  let buf := (st.binary.set 510 0x55).set 511 0xAA
  (.ok buf, { st with binary := buf })

/-- `struct CompactBootloader` of `transition.rs`. -/
structure CompactBootloader where
  code : List Nat

/-- `CompactBootloader::new` of `transition.rs` (`vec![0u8; 512]`). -/
def CompactBootloader.new : CompactBootloader :=
  { code := List.replicate 512 0 }

/-- `CompactBootloader::emit` of `transition.rs`: same guard and write loop
as `emit_bytes`, with the position held in a separate `&mut usize`. -/
def CompactBootloader.emit (st : CompactBootloader) (bytes : List Nat) (pos : Nat) :
    Except String Unit × (CompactBootloader × Nat) :=
  if pos + bytes.length > 510 then
    (.error "Bootloader exceeds 512 bytes", (st, pos))
  else
    let wp := write_loop st.code pos bytes
    (.ok (), ({ code := wp.1 }, wp.2))

/-- The byte array of `CompactBootloader::emit_16bit` (real-mode setup plus
VGA mode 0x13 via INT 0x10). -/
def compact16_bytes : List Nat :=
  [0xFA,
   0x31, 0xC0,
   0x8E, 0xD8,
   0x8E, 0xC0,
   0x8E, 0xD0,
   0xBC, 0x00, 0x7C,
   0xFC,
   0xB8, 0x13, 0x00,
   0xCD, 0x10]

/-- `CompactBootloader::emit_16bit` of `transition.rs`. -/
def CompactBootloader.emit_16bit (st : CompactBootloader) (pos : Nat) :
    Except String Unit × (CompactBootloader × Nat) :=
  st.emit compact16_bytes pos

/-- The byte array of `CompactBootloader::emit_a20`. -/
def compact_a20_bytes : List Nat :=
  [0xE4, 0x92,
   0x0C, 0x02,
   0xE6, 0x92,
   0xEB, 0x00]

/-- `CompactBootloader::emit_a20` of `transition.rs`. -/
def CompactBootloader.emit_a20 (st : CompactBootloader) (pos : Nat) :
    Except String Unit × (CompactBootloader × Nat) :=
  st.emit compact_a20_bytes pos

/-- The byte array of `CompactBootloader::emit_pmode`. -/
def compact_pmode_bytes : List Nat :=
  [0x0F, 0x01, 0x16, 0x7A, 0x7C,
   0x0F, 0x20, 0xC0,
   0x66, 0x83, 0xC8, 0x01,
   0x0F, 0x22, 0xC0,
   0xEA, 0x2E, 0x00, 0x00, 0x00,
   0x08, 0x00,
   0x66, 0xB8, 0x10, 0x00,
   0x8E, 0xD8,
   0x8E, 0xC0]

/-- `CompactBootloader::emit_pmode` of `transition.rs`. -/
def CompactBootloader.emit_pmode (st : CompactBootloader) (pos : Nat) :
    Except String Unit × (CompactBootloader × Nat) :=
  st.emit compact_pmode_bytes pos

/-- The byte array of `CompactBootloader::emit_paging` (2MB pages). -/
def compact_paging_bytes : List Nat :=
  [0xBF, 0x00, 0x10, 0x00, 0x00,
   0xB9, 0x00, 0x04, 0x00, 0x00,
   0x31, 0xC0,
   0xF3, 0xAB,
   0xC7, 0x05, 0x00, 0x10, 0x00, 0x00, 0x07, 0x20, 0x00, 0x00,
   0xC7, 0x05, 0x00, 0x20, 0x00, 0x00, 0x07, 0x30, 0x00, 0x00,
   0xC7, 0x05, 0x00, 0x30, 0x00, 0x00, 0x83, 0x00, 0x00, 0x00,
   0x0F, 0x20, 0xE0,
   0x0D, 0x20, 0x00, 0x00, 0x00,
   0x0F, 0x22, 0xE0,
   0xB8, 0x00, 0x10, 0x00, 0x00,
   0x0F, 0x22, 0xD8]

/-- `CompactBootloader::emit_paging` of `transition.rs`. -/
def CompactBootloader.emit_paging (st : CompactBootloader) (pos : Nat) :
    Except String Unit × (CompactBootloader × Nat) :=
  st.emit compact_paging_bytes pos

/-- The byte array of `CompactBootloader::emit_lmode`. -/
def compact_lmode_bytes : List Nat :=
  [0xB8, 0xC0, 0x00, 0x00, 0x00,
   0x0F, 0x32,
   0x0D, 0x00, 0x01, 0x00, 0x00,
   0x0F, 0x30,
   0x0F, 0x20, 0xC0,
   0x0D, 0x00, 0x00, 0x00, 0x80,
   0x0F, 0x22, 0xC0,
   0x0F, 0x01, 0x16, 0x82, 0x7C,
   0xEA, 0x94, 0x00, 0x00, 0x00,
   0x08, 0x00]

/-- `CompactBootloader::emit_lmode` of `transition.rs`. -/
def CompactBootloader.emit_lmode (st : CompactBootloader) (pos : Nat) :
    Except String Unit × (CompactBootloader × Nat) :=
  st.emit compact_lmode_bytes pos

/-- The byte array of `CompactBootloader::emit_sse`. -/
def compact_sse_bytes : List Nat :=
  [0x48, 0x0F, 0x20, 0xC0,
   0x48, 0x25, 0xFB, 0xFF, 0xFF, 0xFF,
   0x48, 0x0D, 0x02, 0x00, 0x00, 0x00,
   0x48, 0x0F, 0x22, 0xC0,
   0x48, 0x0F, 0x20, 0xE0,
   0x48, 0x0D, 0x00, 0x06, 0x00, 0x00,
   0x48, 0x0F, 0x22, 0xE0]

/-- `CompactBootloader::emit_sse` of `transition.rs`. -/
def CompactBootloader.emit_sse (st : CompactBootloader) (pos : Nat) :
    Except String Unit × (CompactBootloader × Nat) :=
  st.emit compact_sse_bytes pos

/-- The byte array of `CompactBootloader::emit_jump`. -/
def compact_jump_bytes : List Nat :=
  [0x48, 0xB8, 0x00, 0x00, 0x01, 0x00, 0x00, 0x00, 0x00, 0x00,
   0xFF, 0xE0]

/-- `CompactBootloader::emit_jump` of `transition.rs`. -/
def CompactBootloader.emit_jump (st : CompactBootloader) (pos : Nat) :
    Except String Unit × (CompactBootloader × Nat) :=
  st.emit compact_jump_bytes pos

/-- The `gdt32` array of `CompactBootloader::emit_data`. -/
def compact_gdt32_bytes : List Nat :=
  [0x17, 0x00,
   0x7A, 0x7C, 0x00, 0x00,
   0x00, 0x00, 0x00, 0x00, 0x00, 0x00, 0x00, 0x00,
   0xFF, 0xFF, 0x00, 0x00, 0x00, 0x9A, 0xCF, 0x00,
   0xFF, 0xFF, 0x00, 0x00, 0x00, 0x92, 0xCF, 0x00]

/-- The `gdt64` array of `CompactBootloader::emit_data`. -/
def compact_gdt64_bytes : List Nat :=
  [0x17, 0x00,
   0x82, 0x7C, 0x00, 0x00,
   0x00, 0x00, 0x00, 0x00, 0x00, 0x00, 0x00, 0x00,
   0x00, 0x00, 0x00, 0x00, 0x00, 0x9A, 0x20, 0x00,
   0x00, 0x00, 0x00, 0x00, 0x00, 0x92, 0x00, 0x00]

/-- The `message` bytes of `CompactBootloader::emit_data`
(`b"Rython 64-bit Bootloader v1.0"`). -/
def compact_message_bytes : List Nat :=
  [0x52, 0x79, 0x74, 0x68, 0x6F, 0x6E, 0x20, 0x36, 0x34, 0x2D, 0x62, 0x69,
   0x74, 0x20, 0x42, 0x6F, 0x6F, 0x74, 0x6C, 0x6F, 0x61, 0x64, 0x65, 0x72,
   0x20, 0x76, 0x31, 0x2E, 0x30]

/-- `CompactBootloader::emit_data` of `transition.rs`. -/
def CompactBootloader.emit_data (st : CompactBootloader) (pos : Nat) :
    Except String Unit × (CompactBootloader × Nat) :=
  andThen (st.emit compact_gdt32_bytes pos) fun sp =>
  andThen (sp.1.emit compact_gdt64_bytes sp.2) fun sp =>
  sp.1.emit compact_message_bytes sp.2

/-- `CompactBootloader::create` of `transition.rs`: the leading short jump
written by direct indexing, the phase emissions, the data area, and the
0x55/0xAA signature; returns a copy of the 512-byte buffer (`pos` is a
local of `create`, dropped at the end). -/
def CompactBootloader.create (st : CompactBootloader) :
    Except String (List Nat) × CompactBootloader :=
  let pos := 0
  let st : CompactBootloader := { code := st.code.set pos 0xEB }
  let pos := pos + 1
  let st : CompactBootloader := { code := st.code.set pos 0x4E }
  let pos := pos + 1
  let r :=
    andThen (st.emit_16bit pos) fun sp =>
    andThen (sp.1.emit_a20 sp.2) fun sp =>
    andThen (sp.1.emit_pmode sp.2) fun sp =>
    andThen (sp.1.emit_paging sp.2) fun sp =>
    andThen (sp.1.emit_lmode sp.2) fun sp =>
    andThen (sp.1.emit_sse sp.2) fun sp =>
    andThen (sp.1.emit_jump sp.2) fun sp =>
    andThen (sp.1.emit_data sp.2) fun sp =>
    let code := ((sp.1.code.set 510 0x55).set 511 0xAA)
    ((.ok code : Except String (List Nat)), (({ code := code } : CompactBootloader), sp.2))
  (r.1, r.2.1)

/-- `struct MicroBootloader` of `transition.rs` (`code: [u8; 512]`, so the
buffer is 512 bytes by construction). -/
structure MicroBootloader where
  code : List Nat

/-- `MicroBootloader::new` of `transition.rs`. -/
def MicroBootloader.new : MicroBootloader :=
  { code := List.replicate 512 0 }

/-- The `boot_code` array of `MicroBootloader::create` (272 bytes of
hand-coded machine code plus inline GDTs and message). -/
def micro_boot_code : List Nat :=
  [0xFA, 0x31, 0xC0, 0x8E, 0xD8, 0x8E, 0xC0, 0x8E, 0xD0, 0xBC, 0x00, 0x7C, 0xFC, 0xE4, 0x92, 0x0C,
   0x02, 0xE6, 0x92, 0xEB, 0x00, 0x0F, 0x01, 0x16, 0x5A, 0x7C, 0x0F, 0x20, 0xC0, 0x66, 0x83, 0xC8,
   0x01, 0x0F, 0x22, 0xC0, 0xEA, 0x22, 0x00, 0x00, 0x00, 0x08, 0x00, 0x66, 0xB8, 0x10, 0x00, 0x8E,
   0xD8, 0x8E, 0xC0, 0xBF, 0x00, 0x10, 0x00, 0x00, 0xB9, 0x00, 0x04, 0x00, 0x00, 0x31, 0xC0, 0xF3,
   0xAB, 0xC7, 0x05, 0x00, 0x10, 0x00, 0x00, 0x07, 0x20, 0x00, 0x00, 0xC7, 0x05, 0x00, 0x20, 0x00,
   0x00, 0x83, 0x00, 0x00, 0x00, 0x0F, 0x20, 0xE0, 0x0D, 0x20, 0x00, 0x00, 0x00, 0x0F, 0x22, 0xE0,
   0xB8, 0x00, 0x10, 0x00, 0x00, 0x0F, 0x22, 0xD8, 0xB8, 0xC0, 0x00, 0x00, 0x00, 0x0F, 0x32, 0x0D,
   0x00, 0x01, 0x00, 0x00, 0x0F, 0x30, 0x0F, 0x20, 0xC0, 0x0D, 0x00, 0x00, 0x00, 0x80, 0x0F, 0x22,
   0xC0, 0x0F, 0x01, 0x16, 0x62, 0x7C, 0xEA, 0x74, 0x00, 0x00, 0x00, 0x08, 0x00, 0x48, 0x0F, 0x20,
   0xC0, 0x48, 0x25, 0xFB, 0xFF, 0xFF, 0xFF, 0x48, 0x0D, 0x02, 0x00, 0x00, 0x00, 0x48, 0x0F, 0x22,
   0xC0, 0x48, 0x0F, 0x20, 0xE0, 0x48, 0x0D, 0x00, 0x06, 0x00, 0x00, 0x48, 0x0F, 0x22, 0xE0, 0x48,
   0xB8, 0x00, 0x00, 0x01, 0x00, 0x00, 0x00, 0x00, 0x00, 0xFF, 0xE0, 0x17, 0x00, 0x5A, 0x7C, 0x00,
   0x00, 0x00, 0x00, 0x00, 0x00, 0x00, 0x00, 0x00, 0x00, 0xFF, 0xFF, 0x00, 0x00, 0x00, 0x9A, 0xCF,
   0x00, 0xFF, 0xFF, 0x00, 0x00, 0x00, 0x92, 0xCF, 0x00, 0x17, 0x00, 0x62, 0x7C, 0x00, 0x00, 0x00,
   0x00, 0x00, 0x00, 0x00, 0x00, 0x00, 0x00, 0x00, 0x00, 0x00, 0x00, 0x00, 0x9A, 0x20, 0x00, 0x00,
   0x00, 0x00, 0x00, 0x00, 0x00, 0x92, 0x00, 0x00, 0x52, 0x79, 0x74, 0x68, 0x6F, 0x6E, 0x20, 0x4D,
   0x69, 0x63, 0x72, 0x6F, 0x20, 0x42, 0x6F, 0x6F, 0x74, 0x00, 0x00, 0x00, 0x00, 0x00, 0x00, 0x00]

/-- `MicroBootloader::create` of `transition.rs`: copies `boot_code` into
the front of the 512-byte array, writes the 0x55/0xAA signature, and returns
the buffer as a vector; it is infallible (no `Result`). -/
def MicroBootloader.create (st : MicroBootloader) : List Nat × MicroBootloader :=
  let code := (write_loop st.code 0 micro_boot_code).1
  let code := (code.set 510 0x55).set 511 0xAA
  (code, { code := code })

/-- Little-endian 32-bit value read at offset `o` of a byte stream. -/
def le32_at (stream : List Nat) (o : Nat) : Nat :=
  stream.getD o 0 + 256 * stream.getD (o + 1) 0 +
    65536 * stream.getD (o + 2) 0 + 16777216 * stream.getD (o + 3) 0

/-- Target of the 6-byte `0F 84 rel32` (JZ) instruction at offset `o` of a
byte stream, for a nonnegative encoded displacement: the offset after the
instruction plus the displacement. -/
def jz_rel32_target (stream : List Nat) (o : Nat) : Nat :=
  o + 6 + le32_at stream (o + 2)

/-- The image the full Sequencer produces from a fresh emitter
(`ModeTransitionEmitter::new().create_bootloader()`). -/
def mte_image : List Nat :=
  match (ModeTransitionEmitter.create_bootloader ModeTransitionEmitter.new).1 with
  | .ok l => l
  | .error _ => []

/-- A base-only memory operand (`[RBX]`), used to instantiate the memory
encoding theorems. -/
def c5_mem : MemoryOperand :=
  { segment := none, base := some Register.RBX, index := none,
    scale := 1, displacement := 0 }

/-- A base+index memory operand (`[RBX + RCX + 5]`), used to instantiate
the SIB-path theorems. -/
def c9_mem : MemoryOperand :=
  { segment := none, base := some Register.RBX, index := some Register.RCX,
    scale := 1, displacement := 5 }

/-- ModRM assembly as arithmetic: for in-range fields the three OR-ed
shifted fields occupy disjoint bit ranges. -/
theorem lor3_eq (m r q : Nat) (hm : m ≤ 3) (hr : r ≤ 7) (hq : q ≤ 7) :
    (m <<< 6) ||| (r <<< 3) ||| q = 64 * m + 8 * r + q := by
  interval_cases m <;> interval_cases r <;> interval_cases q <;> rfl

/-- Inversion of a successful `modrm_byte` call: the fields were in range
and the byte is their packed value. -/
theorem modrm_byte_ok_inv (mode reg rm m : Nat) (h : modrm_byte mode reg rm = .ok m) :
    mode ≤ 3 ∧ reg ≤ 7 ∧ rm ≤ 7 ∧ m = 64 * mode + 8 * reg + rm := by
  unfold modrm_byte at h
  split at h
  · exact absurd h (by simp)
  · rename_i hcond
    push_neg at hcond
    injection h with h
    refine ⟨by omega, by omega, by omega, ?_⟩
    rw [← h, lor3_eq mode reg rm (by omega) (by omega) (by omega)]

theorem write_loop_snd : ∀ (bs buf : List Nat) (pos : Nat),
    (write_loop buf pos bs).2 = pos + bs.length := by
  intro bs
  induction bs with
  | nil => intro buf pos; simp [write_loop]
  | cons b rest ih => intro buf pos; simp [write_loop, ih]; omega

theorem write_loop_length : ∀ (bs buf : List Nat) (pos : Nat),
    ((write_loop buf pos bs).1).length = buf.length := by
  intro bs
  induction bs with
  | nil => intro buf pos; rfl
  | cons b rest ih => intro buf pos; simp [write_loop, ih]

/-- The write loop leaves every position outside the written window
untouched. -/
theorem write_loop_getElem_out : ∀ (bs buf : List Nat) (pos j : Nat),
    (j < pos ∨ pos + bs.length ≤ j) →
    ((write_loop buf pos bs).1)[j]? = buf[j]? := by
  intro bs
  induction bs with
  | nil => intro buf pos j _; rfl
  | cons b rest ih =>
      intro buf pos j hj
      have hij : pos ≠ j := by rcases hj with h | h <;> simp at h ⊢ <;> omega
      calc ((write_loop (buf.set pos b) (pos + 1) rest).1)[j]?
          = (buf.set pos b)[j]? := by
            apply ih
            rcases hj with h | h
            · left; omega
            · right; simp at h; omega
        _ = buf[j]? := List.getElem?_set_ne hij

/-- The write loop stores byte `k` of the slice at offset `pos + k`. -/
theorem write_loop_getElem_in : ∀ (bs buf : List Nat) (pos k : Nat),
    k < bs.length → pos + bs.length ≤ buf.length →
    ((write_loop buf pos bs).1)[pos + k]? = bs[k]? := by
  intro bs
  induction bs with
  | nil => intro buf pos k hk; simp at hk
  | cons b rest ih =>
      intro buf pos k hk hlen
      cases k with
      | zero =>
          have h1 : ((write_loop (buf.set pos b) (pos + 1) rest).1)[pos + 0]? =
              (buf.set pos b)[pos]? := by
            apply write_loop_getElem_out
            left; omega
          rw [show write_loop buf pos (b :: rest) =
            write_loop (buf.set pos b) (pos + 1) rest from rfl]
          rw [h1]
          have hp : pos < buf.length := by simp at hlen; omega
          rw [List.getElem?_set_self hp]
          simp
      | succ k2 =>
          rw [show write_loop buf pos (b :: rest) =
            write_loop (buf.set pos b) (pos + 1) rest from rfl]
          have harith : pos + (k2 + 1) = (pos + 1) + k2 := by omega
          rw [harith]
          rw [ih (buf.set pos b) (pos + 1) k2 (by simp at hk; omega)
            (by simp [List.length_set]; simp at hlen; omega)]
          simp

/-- Inversion of a successful `andThen`. -/
theorem andThen_ok {σ α β : Type} {r : Except String α × σ}
    {f : σ → Except String β × σ} {b : β} {s : σ}
    (h : andThen r f = (.ok b, s)) :
    ∃ a s1, r = (.ok a, s1) ∧ f s1 = (.ok b, s) := by
  rcases r with ⟨r1, s1⟩
  cases r1 with
  | error e => simp [andThen] at h
  | ok a => exact ⟨a, s1, rfl, by simpa [andThen] using h⟩

/-- Inversion of a successful `andThen`, first-component form. -/
theorem andThen_fst_ok {σ α β : Type} {r : Except String α × σ}
    {f : σ → Except String β × σ} {b : β}
    (h : (andThen r f).1 = .ok b) :
    ∃ a s1, r = (.ok a, s1) ∧ (f s1).1 = .ok b := by
  rcases r with ⟨r1, s1⟩
  cases r1 with
  | error e => simp [andThen] at h
  | ok a => exact ⟨a, s1, rfl, by simpa [andThen] using h⟩

theorem emit_bytes_binary_length (st : ModeTransitionEmitter) (bs : List Nat) :
    ((st.emit_bytes bs).2).binary.length = st.binary.length := by
  unfold ModeTransitionEmitter.emit_bytes
  split
  · rfl
  · simp [write_loop_length]

theorem emit_chunks_binary_length : ∀ (cs : List (List Nat)) (st : ModeTransitionEmitter),
    ((emit_chunks cs st).2).binary.length = st.binary.length := by
  intro cs
  induction cs with
  | nil => intro st; rfl
  | cons c cs ih =>
      intro st
      show ((andThen (st.emit_bytes c) (emit_chunks cs)).2).binary.length = _
      rcases h : st.emit_bytes c with ⟨r, st2⟩
      have hl : st2.binary.length = st.binary.length := by
        have h2 := emit_bytes_binary_length st c
        rw [h] at h2
        exact h2
      cases r with
      | error e => simpa [andThen, h] using hl
      | ok a =>
          simp only [andThen]
          rw [ih st2, hl]

theorem fill_nops_binary_length : ∀ (fuel : Nat) (st : ModeTransitionEmitter),
    ((fill_nops fuel st).2).binary.length = st.binary.length := by
  intro fuel
  induction fuel with
  | zero => intro st; rfl
  | succ n ih =>
      intro st
      unfold fill_nops
      split
      · show ((andThen st.emit_nop (fill_nops n)).2).binary.length = _
        rcases h : st.emit_nop with ⟨r, st2⟩
        have hl : st2.binary.length = st.binary.length := by
          have h2 := emit_bytes_binary_length st [0x90]
          rw [show st.emit_bytes [0x90] = st.emit_nop from rfl, h] at h2
          exact h2
        cases r with
        | error e => simpa [andThen, h] using hl
        | ok a =>
            simp only [andThen]
            rw [ih st2, hl]
      · rfl

theorem setup_paging_binary_length (st : ModeTransitionEmitter) :
    ((st.emit_setup_paging).2).binary.length = st.binary.length := by
  unfold ModeTransitionEmitter.emit_setup_paging
  rcases h : emit_chunks paging_chunks st with ⟨r, st2⟩
  have hl := emit_chunks_binary_length paging_chunks st
  rw [h] at hl
  cases r with
  | error e => simpa [andThen, h] using hl
  | ok a => simpa [andThen, h] using hl

theorem enter_long_mode_binary_length (st : ModeTransitionEmitter) :
    ((st.emit_enter_long_mode).2).binary.length = st.binary.length := by
  unfold ModeTransitionEmitter.emit_enter_long_mode
  rcases h : emit_chunks lmode_chunks st with ⟨r, st2⟩
  have hl := emit_chunks_binary_length lmode_chunks st
  rw [h] at hl
  cases r with
  | error e => simpa [andThen, h] using hl
  | ok a => simpa [andThen, h] using hl

theorem enable_simd_binary_length (st : ModeTransitionEmitter) :
    ((st.emit_enable_simd).2).binary.length = st.binary.length := by
  unfold ModeTransitionEmitter.emit_enable_simd
  rcases h1 : emit_chunks simd_chunks_a st with ⟨r1, s1⟩
  have hl1 := emit_chunks_binary_length simd_chunks_a st
  rw [h1] at hl1
  cases r1 with
  | error e => simpa [andThen, h1] using hl1
  | ok a =>
      simp only [andThen, h1]
      rcases h2 : emit_chunks simd_chunks_b { s1 with has_avx := true } with ⟨r2, s2⟩
      have hl2 := emit_chunks_binary_length simd_chunks_b { s1 with has_avx := true }
      rw [h2] at hl2
      cases r2 with
      | error e => simpa [andThen, h2] using hl2.trans hl1
      | ok a2 => simpa [andThen, h2] using hl2.trans hl1

theorem compact_emit_code_length (st : CompactBootloader) (bs : List Nat) (pos : Nat) :
    (((st.emit bs pos).2).1).code.length = st.code.length := by
  unfold CompactBootloader.emit
  split
  · rfl
  · simp [write_loop_length]

theorem compact_data_code_length (st : CompactBootloader) (pos : Nat) :
    (((st.emit_data pos).2).1).code.length = st.code.length := by
  unfold CompactBootloader.emit_data
  rcases h1 : st.emit compact_gdt32_bytes pos with ⟨r1, sp1⟩
  have hl1 := compact_emit_code_length st compact_gdt32_bytes pos
  rw [h1] at hl1
  cases r1 with
  | error e => simpa [andThen, h1] using hl1
  | ok a =>
      simp only [andThen, h1]
      rcases h2 : sp1.1.emit compact_gdt64_bytes sp1.2 with ⟨r2, sp2⟩
      have hl2 := compact_emit_code_length sp1.1 compact_gdt64_bytes sp1.2
      rw [h2] at hl2
      cases r2 with
      | error e => simpa [andThen, h2] using hl2.trans hl1
      | ok a2 =>
          simp only [andThen, h2]
          have hl3 := compact_emit_code_length sp2.1 compact_message_bytes sp2.2
          exact hl3.trans (hl2.trans hl1)

theorem compact_phase_len {st : CompactBootloader} {bs : List Nat} {pos : Nat}
    {a : Unit} {sp : CompactBootloader × Nat}
    (h : st.emit bs pos = (.ok a, sp)) : sp.1.code.length = st.code.length := by
  have hx := compact_emit_code_length st bs pos
  rw [h] at hx
  exact hx

theorem compact_data_len {st : CompactBootloader} {pos : Nat}
    {a : Unit} {sp : CompactBootloader × Nat}
    (h : st.emit_data pos = (.ok a, sp)) : sp.1.code.length = st.code.length := by
  have hx := compact_data_code_length st pos
  rw [h] at hx
  exact hx

/-- Any successful run of the full Sequencer from a 512-byte buffer yields
a 512-byte image carrying the boot signature. -/
theorem mte_part (st : ModeTransitionEmitter) (img : List Nat)
    (h512 : st.binary.length = 512)
    (hok : (ModeTransitionEmitter.create_bootloader st).1 = .ok img) :
    img.length = 512 ∧ img[510]? = some 0x55 ∧ img[511]? = some 0xAA := by
  rcases hc : ModeTransitionEmitter.create_bootloader st with ⟨res, stf⟩
  rw [hc] at hok
  simp at hok
  subst hok
  unfold ModeTransitionEmitter.create_bootloader at hc
  obtain ⟨a1, s1, h1, hc⟩ := andThen_ok hc
  have l1 : s1.binary.length = 512 := by
    have hx := emit_chunks_binary_length setup16_chunks st
    rw [show emit_chunks setup16_chunks st = st.emit_16bit_setup from rfl, h1] at hx
    simpa [h512] using hx
  obtain ⟨a2, s2, h2, hc⟩ := andThen_ok hc
  have l2 : s2.binary.length = 512 := by
    have hx := emit_chunks_binary_length a20_chunks s1
    rw [show emit_chunks a20_chunks s1 = s1.emit_enable_a20 from rfl, h2] at hx
    simpa [l1] using hx
  obtain ⟨a3, s3, h3, hc⟩ := andThen_ok hc
  have l3 : s3.binary.length = 512 := by
    have hx := emit_chunks_binary_length cpuid_chunks s2
    rw [show emit_chunks cpuid_chunks s2 = s2.emit_cpuid_detection from rfl, h3] at hx
    simpa [l2] using hx
  obtain ⟨a4, s4, h4, hc⟩ := andThen_ok hc
  have l4 : s4.binary.length = 512 := by
    have hx := emit_chunks_binary_length pmode_chunks s3
    rw [show emit_chunks pmode_chunks s3 = s3.emit_enter_protected_mode from rfl, h4] at hx
    simpa [l3] using hx
  obtain ⟨a5, s5, h5, hc⟩ := andThen_ok hc
  have l5 : s5.binary.length = 512 := by
    have hx := setup_paging_binary_length s4
    rw [h5] at hx
    simpa [l4] using hx
  obtain ⟨a6, s6, h6, hc⟩ := andThen_ok hc
  have l6 : s6.binary.length = 512 := by
    have hx := enter_long_mode_binary_length s5
    rw [h6] at hx
    simpa [l5] using hx
  obtain ⟨a7, s7, h7, hc⟩ := andThen_ok hc
  have l7 : s7.binary.length = 512 := by
    have hx := enable_simd_binary_length s6
    rw [h7] at hx
    simpa [l6] using hx
  obtain ⟨a8, s8, h8, hc⟩ := andThen_ok hc
  have l8 : s8.binary.length = 512 := by
    have hx := emit_chunks_binary_length jump_chunks s7
    rw [show emit_chunks jump_chunks s7 = s7.emit_jump_to_graphics from rfl, h8] at hx
    simpa [l7] using hx
  obtain ⟨a9, s9, h9, hc⟩ := andThen_ok hc
  have l9 : s9.binary.length = 512 := by
    have hx := fill_nops_binary_length 512 s8
    rw [h9] at hx
    simpa [l8] using hx
  have himg : (s9.binary.set 510 0x55).set 511 0xAA = img := by
    have hx := congrArg Prod.fst hc
    simpa using hx
  refine ⟨?_, ?_, ?_⟩
  · rw [← himg]
    simp [List.length_set, l9]
  · rw [← himg]
    rw [List.getElem?_set_ne (by decide : (511 : Nat) ≠ 510)]
    rw [List.getElem?_set_self (by rw [l9]; omega)]
  · rw [← himg]
    rw [List.getElem?_set_self (by simp [List.length_set, l9])]

/-- Any successful run of the Compact builder from a 512-byte buffer yields
a 512-byte image carrying the boot signature. -/
theorem compact_part (st : CompactBootloader) (img : List Nat)
    (h512 : st.code.length = 512)
    (hok : (CompactBootloader.create st).1 = .ok img) :
    img.length = 512 ∧ img[510]? = some 0x55 ∧ img[511]? = some 0xAA := by
  unfold CompactBootloader.create at hok
  simp only [] at hok
  obtain ⟨a1, sp1, h1, hok⟩ := andThen_fst_ok hok
  have l1 : sp1.1.code.length = 512 := by
    have hx := compact_phase_len h1
    simpa [h512] using hx
  obtain ⟨a2, sp2, h2, hok⟩ := andThen_fst_ok hok
  have l2 : sp2.1.code.length = 512 := (compact_phase_len h2).trans l1
  obtain ⟨a3, sp3, h3, hok⟩ := andThen_fst_ok hok
  have l3 : sp3.1.code.length = 512 := (compact_phase_len h3).trans l2
  obtain ⟨a4, sp4, h4, hok⟩ := andThen_fst_ok hok
  have l4 : sp4.1.code.length = 512 := (compact_phase_len h4).trans l3
  obtain ⟨a5, sp5, h5, hok⟩ := andThen_fst_ok hok
  have l5 : sp5.1.code.length = 512 := (compact_phase_len h5).trans l4
  obtain ⟨a6, sp6, h6, hok⟩ := andThen_fst_ok hok
  have l6 : sp6.1.code.length = 512 := (compact_phase_len h6).trans l5
  obtain ⟨a7, sp7, h7, hok⟩ := andThen_fst_ok hok
  have l7 : sp7.1.code.length = 512 := (compact_phase_len h7).trans l6
  obtain ⟨a8, sp8, h8, hok⟩ := andThen_fst_ok hok
  have l8 : sp8.1.code.length = 512 := (compact_data_len h8).trans l7
  have himg : (sp8.1.code.set 510 0x55).set 511 0xAA = img := by
    simpa using hok
  refine ⟨?_, ?_, ?_⟩
  · rw [← himg]
    simp [List.length_set, l8]
  · rw [← himg]
    rw [List.getElem?_set_ne (by decide : (511 : Nat) ≠ 510)]
    rw [List.getElem?_set_self (by rw [l8]; omega)]
  · rw [← himg]
    rw [List.getElem?_set_self (by simp [List.length_set, l8])]

/-- The Micro builder always yields a 512-byte image carrying the boot
signature. -/
theorem micro_part (st : MicroBootloader) (h512 : st.code.length = 512) :
    ((st.create).1).length = 512 ∧ ((st.create).1)[510]? = some 0x55
    ∧ ((st.create).1)[511]? = some 0xAA := by
  unfold MicroBootloader.create
  simp only []
  have lw : ((write_loop st.code 0 micro_boot_code).1).length = 512 := by
    rw [write_loop_length]; exact h512
  refine ⟨?_, ?_, ?_⟩
  · simp [List.length_set, lw]
  · rw [List.getElem?_set_ne (by decide : (511 : Nat) ≠ 510)]
    rw [List.getElem?_set_self (by rw [lw]; omega)]
  · rw [List.getElem?_set_self (by simp [List.length_set, lw])]

/-- Claim C1: every variant builder that returns successfully —
`ModeTransitionEmitter::create_bootloader`, `CompactBootloader::create` and
`MicroBootloader::create` — returns an image of exactly 512 bytes with
byte 510 equal to 0x55 and byte 511 equal to 0xAA (the 512-byte buffer
hypothesis is the `vec![0u8; 512]` / `[u8; 512]` construction invariant). -/
theorem boot_images_512_signed :
    (∀ (st : ModeTransitionEmitter) (img : List Nat), st.binary.length = 512 →
       (ModeTransitionEmitter.create_bootloader st).1 = .ok img →
       img.length = 512 ∧ img[510]? = some 0x55 ∧ img[511]? = some 0xAA)
    ∧ (∀ (st : CompactBootloader) (img : List Nat), st.code.length = 512 →
       (CompactBootloader.create st).1 = .ok img →
       img.length = 512 ∧ img[510]? = some 0x55 ∧ img[511]? = some 0xAA)
    ∧ (∀ st : MicroBootloader, st.code.length = 512 →
       ((st.create).1).length = 512 ∧ ((st.create).1)[510]? = some 0x55
       ∧ ((st.create).1)[511]? = some 0xAA) :=
  ⟨mte_part, compact_part, micro_part⟩

set_option maxRecDepth 8192 in
/-- Witness for C1: the full Sequencer run from a fresh emitter concretely
succeeds and its image is a signed boot sector. -/
theorem boot_images_512_signed_witness :
    mte_image.length = 512 ∧ mte_image[510]? = some 0x55 ∧ mte_image[511]? = some 0xAA :=
  boot_images_512_signed.1 ModeTransitionEmitter.new mte_image
    (by rw [show ModeTransitionEmitter.new.binary = List.replicate 512 0 from rfl,
        List.length_replicate])
    (by rfl)

/-- Claim C2: `emit_bytes` (and `CompactBootloader::emit`) rejects, with a
typed error and without touching buffer or offset, any write ending past
offset 510; otherwise it writes every byte of the slice in place and
advances the offset by exactly the slice length, leaving all other bytes
unchanged. -/
theorem emit_bytes_size_discipline :
    (∀ (st : ModeTransitionEmitter) (bs : List Nat), 510 < st.position + bs.length →
       st.emit_bytes bs = (.error "Bootloader exceeds 512 bytes", st))
    ∧ (∀ (st : ModeTransitionEmitter) (bs : List Nat),
       st.position + bs.length ≤ 510 → st.binary.length = 512 →
       (st.emit_bytes bs).1 = .ok ()
       ∧ ((st.emit_bytes bs).2).position = st.position + bs.length
       ∧ (∀ k, k < bs.length →
            (((st.emit_bytes bs).2).binary)[st.position + k]? = bs[k]?)
       ∧ (∀ j, j < st.position ∨ st.position + bs.length ≤ j →
            (((st.emit_bytes bs).2).binary)[j]? = st.binary[j]?))
    ∧ (∀ (st : CompactBootloader) (bs : List Nat) (pos : Nat), 510 < pos + bs.length →
       st.emit bs pos = (.error "Bootloader exceeds 512 bytes", (st, pos)))
    ∧ (∀ (st : CompactBootloader) (bs : List Nat) (pos : Nat),
       pos + bs.length ≤ 510 → st.code.length = 512 →
       (st.emit bs pos).1 = .ok ()
       ∧ ((st.emit bs pos).2).2 = pos + bs.length
       ∧ (∀ k, k < bs.length →
            ((((st.emit bs pos).2).1).code)[pos + k]? = bs[k]?)
       ∧ (∀ j, j < pos ∨ pos + bs.length ≤ j →
            ((((st.emit bs pos).2).1).code)[j]? = st.code[j]?)) := by
  refine ⟨?_, ?_, ?_, ?_⟩
  · intro st bs h
    unfold ModeTransitionEmitter.emit_bytes
    rw [if_pos h]
  · intro st bs h h512
    unfold ModeTransitionEmitter.emit_bytes
    rw [if_neg (by omega)]
    refine ⟨rfl, ?_, ?_, ?_⟩
    · simp [write_loop_snd]
    · intro k hk
      exact write_loop_getElem_in bs st.binary st.position k hk (by omega)
    · intro j hj
      exact write_loop_getElem_out bs st.binary st.position j hj
  · intro st bs pos h
    unfold CompactBootloader.emit
    rw [if_pos h]
  · intro st bs pos h h512
    unfold CompactBootloader.emit
    rw [if_neg (by omega)]
    refine ⟨rfl, ?_, ?_, ?_⟩
    · simp [write_loop_snd]
    · intro k hk
      exact write_loop_getElem_in bs st.code pos k hk (by omega)
    · intro j hj
      exact write_loop_getElem_out bs st.code pos j hj

/-- Witness for C2: a write of three bytes at offset 509 is rejected and
the state is returned untouched. -/
theorem emit_bytes_size_discipline_witness :
    ModeTransitionEmitter.emit_bytes
        { ModeTransitionEmitter.new with position := 509 } [1, 2, 3] =
      (.error "Bootloader exceeds 512 bytes",
        { ModeTransitionEmitter.new with position := 509 }) :=
  emit_bytes_size_discipline.1 { ModeTransitionEmitter.new with position := 509 } [1, 2, 3]
    (by simp [ModeTransitionEmitter.new])

/-- Claim C3 (code-bug evidence): in the phase-7 byte stream, the JZ before
the XCR0 AVX enable block (offset 115) and the JZ before the XCR0 AVX-512
enable block (offset 163) both carry rel32 displacement 0, so each jump
targets the first byte of its enable block (offsets 121 and 169) instead of
skipping past its end (offsets 144 and 192): the enable blocks execute
whether or not the probed feature is present. -/
theorem simd_enable_blocks_reached_unconditionally :
    ((simd_stream.drop 115).take 6 = [0x0F, 0x84, 0x00, 0x00, 0x00, 0x00]
     ∧ (simd_stream.drop 121).take 23 =
         [0x48, 0x31, 0xC0, 0x48, 0x31, 0xD2, 0x48, 0x0F, 0x01, 0xD0,
          0x48, 0x0D, 0x07, 0x00, 0x00, 0x00, 0x48, 0x31, 0xD2, 0x48, 0x0F, 0x01, 0xD1]
     ∧ jz_rel32_target simd_stream 115 = 121
     ∧ ¬ (121 + 23 ≤ jz_rel32_target simd_stream 115))
    ∧ ((simd_stream.drop 163).take 6 = [0x0F, 0x84, 0x00, 0x00, 0x00, 0x00]
     ∧ (simd_stream.drop 169).take 23 =
         [0x48, 0x31, 0xC0, 0x48, 0x31, 0xD2, 0x48, 0x0F, 0x01, 0xD0,
          0x48, 0x0D, 0xE7, 0x00, 0x00, 0x00, 0x48, 0x31, 0xD2, 0x48, 0x0F, 0x01, 0xD1]
     ∧ jz_rel32_target simd_stream 163 = 169
     ∧ ¬ (169 + 23 ≤ jz_rel32_target simd_stream 163)) := by decide

/-- Claim C4 counterexample: ADD with two 64-bit registers encodes to
`[0x01, 0xD8]` and contains no REX.W byte 0x48. -/
theorem add_r64_r64_without_rexw :
    encode_instruction (add (Operand.Register Register.RAX) (Operand.Register Register.RBX)) =
      .ok [0x01, 0xD8]
    ∧ (0x48 : Nat) ∉ ([0x01, 0xD8] : List Nat) :=
  ⟨rfl, by decide⟩

/-- Claim C4 amended: REX.W (0x48) is emitted automatically, without the
caller requesting it, on the Immediate64 paths of MOV and ADD, and on MOV's
register-register path exactly when the destination register is 64-bit; the
register-register paths of ADD, SUB and CMP never emit it, and SUB and CMP
have no Immediate64 path at all. -/
theorem rexw_emission_paths :
    (∀ (r : Register) (imm : Nat) (l : List Nat),
       encode_mov [Operand.Register r, Operand.Immediate64 imm] = .ok l →
       l.head? = some 0x48)
    ∧ (∀ (r : Register) (imm : Nat) (l : List Nat),
       encode_add [Operand.Register r, Operand.Immediate64 imm] = .ok l →
       l.head? = some 0x48)
    ∧ (∀ (dst src : Register) (l : List Nat),
       encode_mov [Operand.Register dst, Operand.Register src] = .ok l →
       (l.head? = some 0x48 ↔ is_64bit_reg dst = true))
    ∧ (∀ (dst src : Register) (l : List Nat),
       encode_add [Operand.Register dst, Operand.Register src] = .ok l →
       (0x48 : Nat) ∉ l)
    ∧ (∀ (dst src : Register) (l : List Nat),
       encode_sub [Operand.Register dst, Operand.Register src] = .ok l →
       (0x48 : Nat) ∉ l)
    ∧ (∀ (dst src : Register) (l : List Nat),
       encode_cmp [Operand.Register dst, Operand.Register src] = .ok l →
       (0x48 : Nat) ∉ l)
    ∧ (∀ (r : Register) (imm : Nat),
       encode_sub [Operand.Register r, Operand.Immediate64 imm] =
         .error "Unsupported SUB operands")
    ∧ (∀ (r : Register) (imm : Nat),
       encode_cmp [Operand.Register r, Operand.Immediate64 imm] =
         .error "Unsupported CMP operands") := by
  refine ⟨?_, ?_, ?_, ?_, ?_, ?_, ?_, ?_⟩
  · intro r imm l h
    cases hrc : register_code r with
    | error e => simp [encode_mov, hrc, Bind.bind, Except.bind] at h
    | ok c =>
        simp [encode_mov, hrc, Bind.bind, Except.bind] at h
        subst h; rfl
  · intro r imm l h
    cases hrc : register_code r with
    | error e => simp [encode_add, hrc, Bind.bind, Except.bind] at h
    | ok c =>
        simp [encode_add, hrc, Bind.bind, Except.bind] at h
        rcases hm : modrm_byte 0 c 0 with e | m
        · rw [hm] at h; simp at h
        · rw [hm] at h; simp at h; subst h; rfl
  · intro dst src l h
    cases hs : register_code src with
    | error e => simp [encode_mov, hs, Bind.bind, Except.bind] at h
    | ok cs =>
        cases hd : register_code dst with
        | error e => simp [encode_mov, hs, hd, Bind.bind, Except.bind] at h
        | ok cd =>
            rcases hm : modrm_byte 3 cs cd with e | m
            · simp [encode_mov, hs, hd, hm, Bind.bind, Except.bind] at h
            · simp [encode_mov, hs, hd, hm, Bind.bind, Except.bind] at h
              subst h
              cases h64 : is_64bit_reg dst <;> simp [h64]
  · intro dst src l h
    cases hs : register_code src with
    | error e => simp [encode_add, hs, Bind.bind, Except.bind] at h
    | ok cs =>
        cases hd : register_code dst with
        | error e => simp [encode_add, hs, hd, Bind.bind, Except.bind] at h
        | ok cd =>
            rcases hm : modrm_byte 3 cs cd with e | m
            · simp [encode_add, hs, hd, hm, Bind.bind, Except.bind] at h
            · simp [encode_add, hs, hd, hm, Bind.bind, Except.bind] at h
              subst h
              obtain ⟨-, -, -, hmv⟩ := modrm_byte_ok_inv 3 cs cd m hm
              simp
              omega
  · intro dst src l h
    cases hs : register_code src with
    | error e => simp [encode_sub, hs, Bind.bind, Except.bind] at h
    | ok cs =>
        cases hd : register_code dst with
        | error e => simp [encode_sub, hs, hd, Bind.bind, Except.bind] at h
        | ok cd =>
            rcases hm : modrm_byte 3 cs cd with e | m
            · simp [encode_sub, hs, hd, hm, Bind.bind, Except.bind] at h
            · simp [encode_sub, hs, hd, hm, Bind.bind, Except.bind] at h
              subst h
              obtain ⟨-, -, -, hmv⟩ := modrm_byte_ok_inv 3 cs cd m hm
              simp
              omega
  · intro dst src l h
    cases hs : register_code src with
    | error e => simp [encode_cmp, hs, Bind.bind, Except.bind] at h
    | ok cs =>
        cases hd : register_code dst with
        | error e => simp [encode_cmp, hs, hd, Bind.bind, Except.bind] at h
        | ok cd =>
            rcases hm : modrm_byte 3 cs cd with e | m
            · simp [encode_cmp, hs, hd, hm, Bind.bind, Except.bind] at h
            · simp [encode_cmp, hs, hd, hm, Bind.bind, Except.bind] at h
              subst h
              obtain ⟨-, -, -, hmv⟩ := modrm_byte_ok_inv 3 cs cd m hm
              simp
              omega
  · intro r imm; rfl
  · intro r imm; rfl

/-- Witness for C4's amended claim: MOV RAX, imm64 starts with 0x48, and
SUB RAX, RBX (= `[0x29, 0xD8]`) contains no 0x48. -/
theorem rexw_emission_paths_witness :
    ([0x48, 0xB8, 0x05, 0x00, 0x00, 0x00, 0x00, 0x00, 0x00, 0x00] : List Nat).head? =
      some 0x48
    ∧ (0x48 : Nat) ∉ ([0x29, 0xD8] : List Nat) :=
  ⟨rexw_emission_paths.1 Register.RAX 5
      [0x48, 0xB8, 0x05, 0x00, 0x00, 0x00, 0x00, 0x00, 0x00, 0x00] rfl,
   (rexw_emission_paths.2.2.2.2.1) Register.RAX Register.RBX [0x29, 0xD8] rfl⟩

/-- Claim C5: memory-operand encoding. Base-only operands select the ModRM
mod field by displacement (0 with no displacement bytes when the
displacement is zero and the base is not BP/RBP; 1 with one displacement
byte for a displacement in [-128, 127]; 2 with the four little-endian bytes
otherwise); base+index operands with scale 1 take the SIB path with ModRM
rm field 4 and a SIB byte packing scale, index and base; every other
base/index/scale combination is a typed error. -/
theorem memory_operand_mod_selection :
    (∀ (mem : MemoryOperand) (rf : Nat) (b : Register) (out : List Nat),
       mem.base = some b → mem.index = none →
       mem.displacement = 0 → b ≠ Register.BP → b ≠ Register.RBP →
       encode_memory_operand mem rf = .ok out →
       ∃ rm, register_code b = .ok rm ∧ out = [64 * 0 + 8 * rf + rm])
    ∧ (∀ (mem : MemoryOperand) (rf : Nat) (b : Register) (out : List Nat),
       mem.base = some b → mem.index = none →
       ¬ (mem.displacement = 0 ∧ b ≠ Register.BP ∧ b ≠ Register.RBP) →
       -128 ≤ mem.displacement → mem.displacement ≤ 127 →
       encode_memory_operand mem rf = .ok out →
       ∃ rm, register_code b = .ok rm ∧
         out = [64 * 1 + 8 * rf + rm, i32_as_u8 mem.displacement])
    ∧ (∀ (mem : MemoryOperand) (rf : Nat) (b : Register) (out : List Nat),
       mem.base = some b → mem.index = none →
       (mem.displacement < -128 ∨ 127 < mem.displacement) →
       encode_memory_operand mem rf = .ok out →
       ∃ rm, register_code b = .ok rm ∧
         out = (64 * 2 + 8 * rf + rm) :: u32_le (i32_as_u32 mem.displacement))
    ∧ (∀ (mem : MemoryOperand) (rf : Nat) (b i : Register) (out : List Nat),
       mem.base = some b → mem.index = some i → mem.scale = 1 →
       encode_memory_operand mem rf = .ok out →
       ∃ ci cb m rest, register_code i = .ok ci ∧ register_code b = .ok cb ∧
         out = ((mem.scale <<< 6) ||| (ci <<< 3) ||| cb) :: (64 * m + 8 * rf + 4) :: rest)
    ∧ (∀ (mem : MemoryOperand) (rf : Nat), mem.base = none →
       encode_memory_operand mem rf = .error "Unsupported memory addressing mode")
    ∧ (∀ (mem : MemoryOperand) (rf : Nat) (b i : Register),
       mem.base = some b → mem.index = some i → mem.scale ≠ 1 →
       encode_memory_operand mem rf = .error "Unsupported memory addressing mode") := by
  refine ⟨?_, ?_, ?_, ?_, ?_, ?_⟩
  · intro mem rf b out hb hi h0 hbp hrbp h
    simp only [encode_memory_operand, hb, hi] at h
    cases hrc : register_code b with
    | error e => simp [hrc, Bind.bind, Except.bind] at h
    | ok rm =>
        rw [hrc] at h
        simp only [Bind.bind, Except.bind] at h
        rw [if_pos (show mem.displacement = 0 ∧ b ≠ Register.BP ∧ b ≠ Register.RBP from
          ⟨h0, hbp, hrbp⟩)] at h
        cases hm : modrm_byte 0 rf rm with
        | error e => rw [hm] at h; simp at h
        | ok m =>
            rw [hm] at h
            simp at h
            obtain ⟨-, -, -, hmv⟩ := modrm_byte_ok_inv 0 rf rm m hm
            exact ⟨rm, rfl, by rw [← h, hmv]⟩
  · intro mem rf b out hb hi hne hlo hhi h
    simp only [encode_memory_operand, hb, hi] at h
    cases hrc : register_code b with
    | error e => simp [hrc, Bind.bind, Except.bind] at h
    | ok rm =>
        rw [hrc] at h
        simp only [Bind.bind, Except.bind] at h
        rw [if_neg hne, if_pos (show -128 ≤ mem.displacement ∧ mem.displacement ≤ 127 from
          ⟨hlo, hhi⟩)] at h
        cases hm : modrm_byte 1 rf rm with
        | error e => rw [hm] at h; simp at h
        | ok m =>
            rw [hm] at h
            simp at h
            obtain ⟨-, -, -, hmv⟩ := modrm_byte_ok_inv 1 rf rm m hm
            exact ⟨rm, rfl, by rw [← h, hmv]⟩
  · intro mem rf b out hb hi hfar h
    simp only [encode_memory_operand, hb, hi] at h
    cases hrc : register_code b with
    | error e => simp [hrc, Bind.bind, Except.bind] at h
    | ok rm =>
        rw [hrc] at h
        simp only [Bind.bind, Except.bind] at h
        rw [if_neg (by rcases hfar with hf | hf <;> intro hc <;> omega),
          if_neg (by rcases hfar with hf | hf <;> intro hc <;> omega)] at h
        cases hm : modrm_byte 2 rf rm with
        | error e => rw [hm] at h; simp at h
        | ok m =>
            rw [hm] at h
            simp at h
            obtain ⟨-, -, -, hmv⟩ := modrm_byte_ok_inv 2 rf rm m hm
            exact ⟨rm, rfl, by rw [← h, hmv]⟩
  · intro mem rf b i out hb hi hs h
    simp only [encode_memory_operand, hb, hi] at h
    rw [if_pos hs] at h
    cases hci : register_code i with
    | error e => simp [hci, Bind.bind, Except.bind] at h
    | ok ci =>
        cases hcb : register_code b with
        | error e => simp [hci, hcb, Bind.bind, Except.bind] at h
        | ok cb =>
            rw [hci, hcb] at h
            simp only [Bind.bind, Except.bind] at h
            set mf := (if mem.displacement = 0 then 0
              else if -128 ≤ mem.displacement ∧ mem.displacement ≤ 127 then 1 else 2 : Nat)
              with hmf
            cases hm : modrm_byte mf rf 4 with
            | error e => rw [hm] at h; simp at h
            | ok m =>
                rw [hm] at h
                simp at h
                obtain ⟨-, -, -, hmv⟩ := modrm_byte_ok_inv mf rf 4 m hm
                refine ⟨ci, cb, mf,
                  (if 0 < mf then u32_le (i32_as_u32 mem.displacement) else []),
                  rfl, rfl, ?_⟩
                rw [← h, hmv]
  · intro mem rf hb
    cases hi : mem.index <;> simp [encode_memory_operand, hb, hi]
  · intro mem rf b i hb hi hs
    simp only [encode_memory_operand, hb, hi]
    rw [if_neg hs]

/-- Witness for C5: `[RBX]` with displacement 0 and reg field 0 encodes to
the single ModRM byte 0x03 (mod 0). -/
theorem memory_operand_mod_selection_witness :
    ∃ rm, register_code Register.RBX = .ok rm ∧ ([0x03] : List Nat) = [64 * 0 + 8 * 0 + rm] :=
  memory_operand_mod_selection.1 c5_mem 0 Register.RBX [0x03]
    rfl rfl rfl (by decide) (by decide) rfl

/-- Claim C6: the two reference scenarios. `MOV EAX, 5` encodes to
`B8 05 00 00 00` and `MOV RAX, 5` (64-bit) to `48 B8 05 00 00 00 00 00 00 00`. -/
theorem mov_immediate_scenarios :
    encode_instruction (mov (Operand.Register Register.EAX) (Operand.Immediate32 5)) =
      .ok [0xB8, 0x05, 0x00, 0x00, 0x00]
    ∧ encode_instruction (mov (Operand.Register Register.RAX) (Operand.Immediate64 5)) =
      .ok [0x48, 0xB8, 0x05, 0x00, 0x00, 0x00, 0x00, 0x00, 0x00, 0x00] := by
  constructor <;> rfl

/-- Claim C7 counterexample: the RealMode16 phase never emits STI (0xFB),
neither in the Sequencer's phase-1 stream nor in the Compact variant's. -/
theorem realmode_phase_no_sti :
    (0xFB : Nat) ∉ setup16_chunks.flatten ∧ (0xFB : Nat) ∉ compact16_bytes := by decide

/-- Claim C7 amended: the RealMode16 phase emits, in order, CLI (0xFA),
XOR AX,AX with MOV DS/ES/SS,AX (zeroing the segment registers), MOV SP,0x7C00,
and CLD (0xFC); interrupts are never re-enabled — no STI (0xFB) occurs. The
Compact variant appends MOV AX,0x13 / INT 0x10 after CLD. -/
theorem realmode_phase_stream :
    setup16_chunks.flatten =
      [0xFA, 0x31, 0xC0, 0x8E, 0xD8, 0x8E, 0xC0, 0x8E, 0xD0, 0xBC, 0x00, 0x7C, 0xFC]
    ∧ compact16_bytes =
      [0xFA, 0x31, 0xC0, 0x8E, 0xD8, 0x8E, 0xC0, 0x8E, 0xD0, 0xBC, 0x00, 0x7C, 0xFC,
       0xB8, 0x13, 0x00, 0xCD, 0x10]
    ∧ (0xFB : Nat) ∉ setup16_chunks.flatten
    ∧ (0xFB : Nat) ∉ compact16_bytes := by decide

/-- Claim C8: `modrm_byte` returns a typed error exactly when a field is
out of range (mode > 3, reg > 7 or rm > 7), and otherwise the packed byte
`(mode<<6)|(reg<<3)|rm`. -/
theorem modrm_byte_field_validation :
    (∀ mode reg rm : Nat, 3 < mode ∨ 7 < reg ∨ 7 < rm →
       modrm_byte mode reg rm = .error "Invalid ModR/M fields")
    ∧ (∀ mode reg rm : Nat, mode ≤ 3 → reg ≤ 7 → rm ≤ 7 →
       modrm_byte mode reg rm = .ok ((mode <<< 6) ||| (reg <<< 3) ||| rm)) := by
  constructor
  · intro mode reg rm h
    unfold modrm_byte
    rw [if_pos h]
  · intro mode reg rm h1 h2 h3
    unfold modrm_byte
    rw [if_neg (by omega)]

/-- Witness for C8: mode 4 is rejected; (3, 1, 2) packs to 0xCA. -/
theorem modrm_byte_field_validation_witness :
    modrm_byte 4 0 0 = .error "Invalid ModR/M fields"
    ∧ modrm_byte 3 1 2 = .ok ((3 <<< 6) ||| (1 <<< 3) ||| 2) :=
  ⟨modrm_byte_field_validation.1 4 0 0 (by omega),
   modrm_byte_field_validation.2 3 1 2 (by omega) (by omega) (by omega)⟩

/-- Claim C9: on the base+index (scale 1) path the SIB byte is appended
before the ModRM byte, and any nonzero displacement contributes four
little-endian bytes even when it fits [-128, 127] and the mod field is 1;
in `encode_mov`'s register-from-memory arm the opcode precedes both. -/
theorem sib_path_layout :
    (∀ (mem : MemoryOperand) (rf : Nat) (b i : Register) (out : List Nat),
       mem.base = some b → mem.index = some i → mem.scale = 1 →
       encode_memory_operand mem rf = .ok out →
       ∃ ci cb, register_code i = .ok ci ∧ register_code b = .ok cb ∧
         ((mem.displacement = 0 ∧
             out = [(mem.scale <<< 6) ||| (ci <<< 3) ||| cb, 64 * 0 + 8 * rf + 4])
          ∨ (mem.displacement ≠ 0 ∧ -128 ≤ mem.displacement ∧ mem.displacement ≤ 127 ∧
             out = ((mem.scale <<< 6) ||| (ci <<< 3) ||| cb) :: (64 * 1 + 8 * rf + 4) ::
               u32_le (i32_as_u32 mem.displacement))
          ∨ ((mem.displacement < -128 ∨ 127 < mem.displacement) ∧
             out = ((mem.scale <<< 6) ||| (ci <<< 3) ||| cb) :: (64 * 2 + 8 * rf + 4) ::
               u32_le (i32_as_u32 mem.displacement))))
    ∧ (∀ (dst : Register) (mem : MemoryOperand) (out : List Nat),
       encode_mov [Operand.Register dst, Operand.Memory mem] = .ok out →
       ∃ cd rest, register_code dst = .ok cd ∧ encode_memory_operand mem cd = .ok rest ∧
         out = 0x8B :: rest) := by
  constructor
  · intro mem rf b i out hb hi hs h
    simp only [encode_memory_operand, hb, hi] at h
    rw [if_pos hs] at h
    cases hci : register_code i with
    | error e => simp [hci, Bind.bind, Except.bind] at h
    | ok ci =>
        cases hcb : register_code b with
        | error e => simp [hci, hcb, Bind.bind, Except.bind] at h
        | ok cb =>
            rw [hci, hcb] at h
            simp only [Bind.bind, Except.bind] at h
            by_cases hd0 : mem.displacement = 0
            · rw [if_pos hd0] at h
              cases hm : modrm_byte 0 rf 4 with
              | error e => rw [hm] at h; simp at h
              | ok m =>
                  rw [hm] at h
                  simp at h
                  obtain ⟨-, -, -, hmv⟩ := modrm_byte_ok_inv 0 rf 4 m hm
                  exact ⟨ci, cb, rfl, rfl, Or.inl ⟨hd0, by rw [← h, hmv]⟩⟩
            · rw [if_neg hd0] at h
              by_cases hrange : -128 ≤ mem.displacement ∧ mem.displacement ≤ 127
              · rw [if_pos hrange] at h
                cases hm : modrm_byte 1 rf 4 with
                | error e => rw [hm] at h; simp at h
                | ok m =>
                    rw [hm] at h
                    simp at h
                    obtain ⟨-, -, -, hmv⟩ := modrm_byte_ok_inv 1 rf 4 m hm
                    exact ⟨ci, cb, rfl, rfl,
                      Or.inr (Or.inl ⟨hd0, hrange.1, hrange.2, by rw [← h, hmv]⟩)⟩
              · rw [if_neg hrange] at h
                cases hm : modrm_byte 2 rf 4 with
                | error e => rw [hm] at h; simp at h
                | ok m =>
                    rw [hm] at h
                    simp at h
                    obtain ⟨-, -, -, hmv⟩ := modrm_byte_ok_inv 2 rf 4 m hm
                    refine ⟨ci, cb, rfl, rfl, Or.inr (Or.inr ⟨by push_neg at hrange; omega,
                      by rw [← h, hmv]⟩)⟩
  · intro dst mem out h
    cases hcd : register_code dst with
    | error e => simp [encode_mov, hcd, Bind.bind, Except.bind] at h
    | ok cd =>
        cases hmem : encode_memory_operand mem cd with
        | error e => simp [encode_mov, hcd, hmem, Bind.bind, Except.bind] at h
        | ok rest =>
            simp [encode_mov, hcd, hmem, Bind.bind, Except.bind] at h
            exact ⟨cd, rest, rfl, hmem, by rw [← h]⟩

/-- Witness for C9: `[RBX + RCX + 5]` with reg field 0 encodes as SIB 0x4B,
then ModRM 0x44 (mod 1, rm 4), then the four little-endian bytes of 5. -/
theorem sib_path_layout_witness :
    ∃ ci cb, register_code Register.RCX = .ok ci ∧ register_code Register.RBX = .ok cb ∧
      ((c9_mem.displacement = 0 ∧
          ([0x4B, 0x44, 0x05, 0x00, 0x00, 0x00] : List Nat) =
            [(c9_mem.scale <<< 6) ||| (ci <<< 3) ||| cb, 64 * 0 + 8 * 0 + 4])
       ∨ (c9_mem.displacement ≠ 0 ∧ -128 ≤ c9_mem.displacement ∧ c9_mem.displacement ≤ 127 ∧
          ([0x4B, 0x44, 0x05, 0x00, 0x00, 0x00] : List Nat) =
            ((c9_mem.scale <<< 6) ||| (ci <<< 3) ||| cb) :: (64 * 1 + 8 * 0 + 4) ::
              u32_le (i32_as_u32 c9_mem.displacement))
       ∨ ((c9_mem.displacement < -128 ∨ 127 < c9_mem.displacement) ∧
          ([0x4B, 0x44, 0x05, 0x00, 0x00, 0x00] : List Nat) =
            ((c9_mem.scale <<< 6) ||| (ci <<< 3) ||| cb) :: (64 * 2 + 8 * 0 + 4) ::
              u32_le (i32_as_u32 c9_mem.displacement))) :=
  sib_path_layout.1 c9_mem 0 Register.RBX Register.RCX
    [0x4B, 0x44, 0x05, 0x00, 0x00, 0x00] rfl rfl rfl rfl

/-- Claim C10: `encode_instruction` never reads the `prefixes` vector —
instructions differing only there (for example through `Instruction::modrm`,
which pushes a ModRM byte into `prefixes`) encode identically. -/
theorem encode_instruction_ignores_prefixes_vector :
    (∀ (i : Instruction) (p : List Nat),
       encode_instruction { i with prefixes := p } = encode_instruction i)
    ∧ (∀ (i : Instruction) (reg rm : Nat),
       encode_instruction (i.modrm reg rm) = encode_instruction i) := by
  constructor
  · intro i p; cases i; rfl
  · intro i reg rm; cases i; rfl
